import Mathlib

/-!
Verification development for the BAISR repository (bank application inventory
system).  The Python sources are shallowly embedded:

* `Graph`     — `bank_inventory_explorer_modules/graph.py` (`GraphBuilder`):
  search highlighting, 1-hop neighborhood filtering, node sizing.
* `Analytics` — `bank_inventory_explorer_modules/analytics.py`
  (`AnalyticsEngine.calculate_metrics`).
* `Gen`       — `generate_demo_data.d/00_generate_editable_seed_spreadsheet.py`
  (`DemoDataGenerator`): component/relationship generation with problem
  patterns.

The Python `random` module is abstracted as an explicit stream of draws
(`List Nat`): `random.random()` draws `n` and yields the rational
`(n % 2^53) / 2^53` (CPython's `random()` returns `k/2^53`), `randint a b`
yields `a + n % (b - a + 1)`, `choice`/`sample` pick by index.  `datetime.now()`
is a second stream of opaque `Nat` timestamps.  Pandas DataFrames are lists of
row records together with column-presence flags.
-/

/-- Case-sensitive substring test on character lists: Python's `needle in hay`. -/
def subOcc (hay needle : List Char) : Bool :=
  match hay with
  | [] => needle.isEmpty
  | _ :: t => needle.isPrefixOf hay || subOcc t needle

/-- Python `needle in hay` on strings (case-sensitive). -/
def strIn (needle hay : String) : Bool :=
  subOcc hay.data needle.data

/-- Python `needle in hay.lower()` where `needle` is already lowercase. -/
def strInLower (needle hay : String) : Bool :=
  strIn needle (String.mk (hay.data.map Char.toLower))

/-- Lowercase a string, Python `s.lower()` (ASCII-adequate for this data). -/
def lowerStr (s : String) : String :=
  String.mk (s.data.map Char.toLower)

namespace Graph

/-- The `data` dictionary of a cytoscape node as assembled by
`GraphBuilder.create_graph_data`; only the fields read or written by the
search / neighborhood filters are modelled (the remaining entries are carried
unchanged by those functions).  `vlan` is stored stringified, matching the
`str(node_data.get('vlan', ''))` read in the filters. -/
structure NodeData where
  id : String
  name : String
  ip : String
  vlan : String
  location : String
  deriving Repr, DecidableEq

/-- The mutable part of a node's `style` dictionary: the filters set
`border-color`, `border-width` and `opacity`; the initial style from
`create_graph_data` has `border-color '#000000'`, `border-width 2` and no
`opacity` key. -/
structure NodeStyle where
  borderColor : String
  borderWidth : Nat
  opacity : Option ℚ
  deriving Repr, DecidableEq

/-- A graph node: `data` plus `style`. -/
structure GNode where
  data : NodeData
  style : NodeStyle
  deriving Repr, DecidableEq

/-- A graph edge; only `data.source` and `data.target` are read by the
neighborhood filter. -/
structure GEdge where
  source : String
  target : String
  deriving Repr, DecidableEq

/-- The match test shared by `apply_search_filter` and
`apply_neighborhood_filter`: the lowered search term occurs in the lowered
`name`, `ip`, stringified `vlan`, or `location`. -/
def nodeMatches (term : String) (d : NodeData) : Bool :=
  strInLower (lowerStr term) d.name || strInLower (lowerStr term) d.ip ||
  strInLower (lowerStr term) d.vlan || strInLower (lowerStr term) d.location

/-- Restyle applied to a node matching the search. -/
def highlightNode (n : GNode) : GNode :=
  { n with style := { n.style with borderColor := "#FFD700", borderWidth := 4 } }

/-- Restyle applied to a non-matching node by the search filter. -/
def fadeNode (n : GNode) : GNode :=
  { n with style := { n.style with opacity := some (3 / 10 : ℚ) } }

/-- `GraphBuilder.apply_search_filter`: empty term returns the list unchanged;
otherwise every node is restyled in place (highlighted or faded). -/
def applySearchFilter (nodes : List GNode) (term : String) : List GNode :=
  if term = "" then nodes
  else nodes.map (fun n =>
    if nodeMatches term n.data then highlightNode n else fadeNode n)

/-- The `connected_ids` accumulation loop of `apply_neighborhood_filter`:
starting from the matched ids, for each edge add the target when the source is
matched and the source when the target is matched. -/
def connectedFold (matched : List String) (edges : List GEdge) : List String :=
  edges.foldl (fun acc e =>
    let acc := if e.source ∈ matched then acc ++ [e.target] else acc
    if e.target ∈ matched then acc ++ [e.source] else acc) matched

/-- `GraphBuilder.apply_neighborhood_filter`: keep only matched nodes and their
1-hop neighbors, and the edges lying inside that id set; return the input
unchanged when the term is empty or nothing matches. -/
def applyNeighborhoodFilter (nodes : List GNode) (edges : List GEdge)
    (term : String) : List GNode × List GEdge :=
  if term = "" then (nodes, edges)
  else
    let matched := (nodes.filter (fun n => nodeMatches term n.data)).map
      (fun n => n.data.id)
    if matched = [] then (nodes, edges)
    else
      let connected := connectedFold matched edges
      let fnodes := (nodes.filter (fun n => n.data.id ∈ connected)).map
        (fun n => if n.data.id ∈ matched then highlightNode n else n)
      let fedges := edges.filter (fun e =>
        e.source ∈ connected ∧ e.target ∈ connected)
      (fnodes, fedges)

/-- The component row fields read by `GraphBuilder._calculate_node_size`
(connection counts are non-negative in the loaded data). -/
structure SizedComp where
  child_count : Nat
  relationship_from_count : Nat
  relationship_to_count : Nat
  peer_relationship_count : Nat
  total_relationship_count : Nat
  deriving Repr, DecidableEq

/-- `GraphBuilder._calculate_node_size`. -/
def calcNodeSize (c : SizedComp) (sizingMode : String) : Nat :=
  if sizingMode = "uniform" then 30
  else
    let count :=
      if sizingMode = "hierarchical" then c.child_count
      else if sizingMode = "dependencies" then
        c.relationship_from_count + c.relationship_to_count
      else if sizingMode = "peer" then c.peer_relationship_count
      else c.total_relationship_count
    min (20 + count * 2) 60

end Graph

namespace Analytics

/-- A row of the `components` DataFrame as read by
`AnalyticsEngine.calculate_metrics`.  `component_type` and
`physical_location` are accessed unconditionally; the remaining columns are
consulted only when present (see `CompDF` flags).  `ip` is `none` for a null
entry (`notna`). -/
structure CompRow where
  component_type : String
  physical_location : String
  vlan : Nat
  ip : Option String
  protocol_name : String
  protocol_id : Nat
  mac : String
  record_quality_grade : String
  total_relationship_count : Nat
  deriving Repr, DecidableEq

/-- The `components` DataFrame: its rows plus which optional columns exist
(`'vlan' in components_df.columns` etc.). -/
structure CompDF where
  rows : List CompRow
  hasVlan : Bool
  hasIp : Bool
  hasProtocolName : Bool
  hasMac : Bool
  hasQuality : Bool
  hasRelCount : Bool
  deriving Repr, DecidableEq

/-- A row of the `dependencies` DataFrame. -/
structure DepRow where
  component_id : Nat
  related_component_id : Nat
  deriving Repr, DecidableEq

/-- The `dependencies` DataFrame with column-presence flags. -/
structure DepDF where
  rows : List DepRow
  hasComponentId : Bool
  hasRelatedId : Bool
  deriving Repr, DecidableEq

/-- A row of the `relationships` DataFrame. -/
structure RelRow where
  relationship_type : String
  deriving Repr, DecidableEq

/-- The `data` dictionary handed to the analytics engine: each key may be
absent. -/
structure DataDict where
  components : Option CompDF
  dependencies : Option DepDF
  relationships : Option (List RelRow)

/-- Number of distinct values in a column (pandas `nunique`). -/
def nunique {α : Type} [DecidableEq α] (l : List α) : Nat :=
  l.dedup.length

/-- The components-derived section of `calculate_metrics` (everything the
method computes from `components_df` alone, in insertion order). -/
def componentMetrics (cdf : CompDF) : List (String × ℚ) :=
  let m : List (String × ℚ) :=
    [("total_components", (cdf.rows.length : ℚ)),
     ("component_types", (nunique (cdf.rows.map (·.component_type)) : ℚ)),
     ("locations", (nunique (cdf.rows.map (·.physical_location)) : ℚ))]
  let m := m ++
    [("total_vlans",
      if cdf.hasVlan then (nunique (cdf.rows.map (·.vlan)) : ℚ) else 0)]
  let m := m ++
    [("components_with_ip",
      if cdf.hasIp then
        ((cdf.rows.filter (fun r => r.ip.isSome)).length : ℚ)
      else 0)]
  let m := if cdf.hasProtocolName then m ++
    [("unique_protocols", (nunique (cdf.rows.map (·.protocol_name)) : ℚ)),
     ("unassigned_protocols",
      ((cdf.rows.filter (fun r => r.protocol_id = 999)).length : ℚ))]
    else m
  let m := if cdf.hasMac then m ++
    [("unique_mac_addresses", (nunique (cdf.rows.map (·.mac)) : ℚ)),
     ("default_mac_addresses",
      ((cdf.rows.filter
          (fun r => r.mac = "00:00:00:00:00:00")).length : ℚ))]
    else m
  let m := if cdf.hasQuality then m ++
    [("green_records",
      ((cdf.rows.filter
          (fun r => r.record_quality_grade = "_PT_GREEN_RECORD_")).length : ℚ)),
     ("yellow_records",
      ((cdf.rows.filter
          (fun r => r.record_quality_grade = "_PT_YELLOW_RECORD_")).length : ℚ)),
     ("red_records",
      ((cdf.rows.filter
          (fun r => r.record_quality_grade = "_PT_RED_RECORD_")).length : ℚ))]
    else m
  if cdf.hasRelCount then m ++
    [("avg_connections",
      ((cdf.rows.map (·.total_relationship_count)).sum : ℚ) /
        (cdf.rows.length : ℚ)),
     ("max_connections",
      ((cdf.rows.map (·.total_relationship_count)).foldl max 0 : ℚ)),
     ("isolated_components",
      ((cdf.rows.filter
          (fun r => r.total_relationship_count = 0)).length : ℚ))]
    else m

/-- `AnalyticsEngine.calculate_metrics`.  The returned metrics dictionary is
modelled as an association list in insertion order; all values are rationals
(counts are integral, `avg_connections` is the pandas mean).  The dependency
and relationship sections only ever append entries after the components
section. -/
def calcMetrics (d : DataDict) : List (String × ℚ) :=
  match d.components with
  | none => []
  | some cdf =>
    if cdf.rows.isEmpty then []
    else
      let m := componentMetrics cdf
      let m := match d.dependencies with
        | some ddf =>
          if ddf.rows.isEmpty then m else m ++
            [("total_dependencies", (ddf.rows.length : ℚ)),
             ("unique_consumers",
              if ddf.hasComponentId then
                (nunique (ddf.rows.map (·.component_id)) : ℚ)
              else 0),
             ("unique_producers",
              if ddf.hasRelatedId then
                (nunique (ddf.rows.map (·.related_component_id)) : ℚ)
              else 0)]
        | none => m
      let m := match d.relationships with
        | some rrows =>
          if rrows.isEmpty then m else m ++
            [("total_relationships", (rrows.length : ℚ)),
             ("relationship_types",
              (nunique (rrows.map (·.relationship_type)) : ℚ))]
        | none => m
      m

/-- A complete sample component row for concrete checks. -/
def sampleRow1 : CompRow :=
  { component_type := "application", physical_location := "DC01_AL",
    vlan := 100, ip := some "10.1.10.10", protocol_name := "HTTPS",
    protocol_id := 2, mac := "00:1B:44:11:3A:01",
    record_quality_grade := "_PT_GREEN_RECORD_",
    total_relationship_count := 3 }

/-- A pending sample component row for concrete checks. -/
def sampleRow2 : CompRow :=
  { component_type := "polyglot_persistence", physical_location := "DC02_NC",
    vlan := 1, ip := none, protocol_name := "_PT_PENDING_",
    protocol_id := 999, mac := "00:00:00:00:00:00",
    record_quality_grade := "_PT_YELLOW_RECORD_",
    total_relationship_count := 1 }

/-- A two-row components DataFrame with every optional column present. -/
def sampleDF : CompDF :=
  { rows := [sampleRow1, sampleRow2], hasVlan := true, hasIp := true,
    hasProtocolName := true, hasMac := true, hasQuality := true,
    hasRelCount := true }

/-- A data dictionary holding only the sample components DataFrame. -/
def sampleData : DataDict :=
  { components := some sampleDF, dependencies := none,
    relationships := none }

end Analytics

namespace Gen

/-- Reference tables loaded by `DemoDataGenerator.load_reference_data`:
name-to-id association lists in database order (Python dicts preserve
insertion order).  `subtypeParent` is `subtype_parent_map`
(subtype id to parent type name). -/
structure RefData where
  componentTypes : List (String × Nat)
  componentSubtypes : List (String × Nat)
  subtypeParent : List (Nat × String)
  environments : List (String × Nat)
  statuses : List (String × Nat)
  abstractionLevels : List (String × Nat)
  physicalLocations : List (String × Nat)
  relationshipTypes : List (String × Nat)
  protocols : List (String × Nat)
  deriving Repr

/-- Dictionary lookup `d[k]` / `k in d` for a name-keyed reference table. -/
def lookupStr (l : List (String × Nat)) (k : String) : Option Nat :=
  (l.find? (fun p => p.1 = k)).map (fun p => p.2)

/-- Dictionary lookup for an id-keyed table (`subtype_parent_map.get`). -/
def lookupNat (l : List (Nat × String)) (k : Nat) : Option String :=
  (l.find? (fun p => p.1 = k)).map (fun p => p.2)

/-- Constructor parameters of `DemoDataGenerator` used by generation.  The
ratios are rationals in `[0, 1]`. -/
structure Params where
  scale : String
  problemRatio : ℚ
  appConcentration : String
  pendingRatio : ℚ
  deriving Repr

/-- A generated component record (the dict built by `create_component`).
`fqdn` is `none` when the key is omitted so that the database default applies
(minimal pending records, and half of the partial ones).  `created_at` /
`updated_at` hold opaque `datetime.now()` readings. -/
structure Component where
  component_id : Nat
  physical_location_id : Nat
  vlan : Nat
  ip : String
  port : Nat
  mac : String
  app_code : String
  protocol_id : Nat
  record_quality_grade : String
  component_type_id : Nat
  component_subtype_id : Nat
  description : String
  environment_id : Nat
  abstraction_level_id : Nat
  ops_status_id : Nat
  created_at : Nat
  created_by : String
  updated_at : Nat
  updated_by : String
  fqdn : Option String
  deriving Repr, DecidableEq

/-- A generated relationship record (the dict built by
`create_relationship`). -/
structure Relationship where
  relationship_id : Nat
  component_id : Nat
  related_component_id : Nat
  relationship_type_id : Nat
  description : String
  created_at : Nat
  created_by : String
  updated_at : Nat
  updated_by : String
  deriving Repr, DecidableEq

/-- Mutable generator state: the two oracle streams plus the tracking fields
of `DemoDataGenerator.__init__`.  `component_map` is not stored separately:
it is the id-index of `components` (the Python code keeps the two containers
in sync), so map lookups are modelled by searching `components`. -/
structure GenState where
  rand : List Nat
  time : List Nat
  components : List Component
  relationships : List Relationship
  componentIdCounter : Nat
  relationshipIdCounter : Nat
  macCounter : Nat
  problemsCreated : List String
  goodPatternsCreated : List String
  deriving Repr

/-- Draw the next raw value from the random stream (an exhausted stream keeps
yielding 0, i.e. a finite stream stands for its zero-padded extension). -/
def drawNat (s : GenState) : Nat × GenState :=
  match s.rand with
  | [] => (0, s)
  | n :: r => (n, { s with rand := r })

/-- `random.random()`: CPython returns `u / 2^53` with `u < 2^53`; the draw
is kept as the numerator `u` and compared against rational thresholds by
cross-multiplication (`floatLt` / `floatGt`). -/
def drawFloat (s : GenState) : Nat × GenState :=
  let (n, s) := drawNat s
  (n % 2 ^ 53, s)

/-- `random.random() < r` for the draw numerator `u`:
`u / 2^53 < r.num / r.den`. -/
def floatLt (u : Nat) (r : ℚ) : Bool :=
  (u : Int) * (r.den : Int) < r.num * 2 ^ 53

/-- `random.random() > r` for the draw numerator `u`. -/
def floatGt (u : Nat) (r : ℚ) : Bool :=
  r.num * 2 ^ 53 < (u : Int) * (r.den : Int)

/-- `random.randint(a, b)` (inclusive bounds, `a ≤ b` at every call site). -/
def randint (a b : Nat) (s : GenState) : Nat × GenState :=
  let (n, s) := drawNat s
  (a + n % (b + 1 - a), s)

/-- `random.choice(l)`: pick by index; call sites guarantee `l` nonempty. -/
def choice {α : Type} (l : List α) (dflt : α) (s : GenState) : α × GenState :=
  let (n, s) := drawNat s
  (l.getD (n % l.length) dflt, s)

/-- `random.sample(l, k)`: `k` distinct positions, drawn one at a time
(call sites guarantee `k ≤ l.length`). -/
def sample {α : Type} (l : List α) (k : Nat) (s : GenState) :
    List α × GenState :=
  match k, l with
  | 0, _ => ([], s)
  | _ + 1, [] => ([], s)
  | k + 1, a :: t =>
    let (n, s) := drawNat s
    let i := n % (a :: t).length
    let x := (a :: t).getD i a
    let (xs, s) := sample ((a :: t).eraseIdx i) k s
    (x :: xs, s)

/-- `datetime.now()`: the next opaque timestamp from the time stream. -/
def nowT (s : GenState) : Nat × GenState :=
  match s.time with
  | [] => (0, s)
  | t :: r => (t, { s with time := r })

/-- One uppercase hexadecimal digit. -/
def hexDigit (n : Nat) : Char :=
  if n < 10 then Char.ofNat (48 + n) else Char.ofNat (55 + n)

/-- Uppercase hexadecimal digits of a positive number. -/
def hexDigits : Nat → List Char
  | 0 => []
  | n + 1 => hexDigits ((n + 1) / 16) ++ [hexDigit ((n + 1) % 16)]
decreasing_by exact Nat.div_lt_self (Nat.succ_pos n) (by omega)

/-- Python `"{:02X}".format n`. -/
def hex2 (n : Nat) : String :=
  let ds := if n = 0 then ['0'] else hexDigits n
  String.mk (if ds.length < 2 then '0' :: ds else ds)

/-- Python `"{:02d}".format n`. -/
def dec2 (n : Nat) : String :=
  if n < 10 then "0" ++ toString n else toString n

/-- Python `"{:03d}".format n`. -/
def dec3 (n : Nat) : String :=
  if n < 10 then "00" ++ toString n
  else if n < 100 then "0" ++ toString n
  else toString n

/-- `DemoDataGenerator.get_next_mac`. -/
def getNextMac (s : GenState) : String × GenState :=
  ("00:1B:44:11:3A:" ++ hex2 s.macCounter, { s with macCounter := s.macCounter + 1 })

/-- The datacenter-number scan shared by `get_ip_for_location_and_type`. -/
def getDcNum (location : String) : String :=
  if strIn "DC01" location || strIn "AL" location then "1"
  else if strIn "DC02" location || strIn "NC" location then "2"
  else if strIn "DC03" location || strIn "VA" location then "3"
  else "1"

/-- `DemoDataGenerator.get_ip_for_location_and_type`. -/
def getIpForLocationAndType (location fqdn : String) (s : GenState) :
    String × GenState :=
  let base := "10." ++ getDcNum location
  let (subnet, s) :=
    if strIn "app" fqdn || strIn "web" fqdn || strIn "portal" fqdn ||
        strIn "mobile" fqdn || strIn "api" fqdn then randint 10 20 s
    else if strIn "db" fqdn || strIn "database" fqdn then randint 30 40 s
    else if strIn "redis" fqdn || strIn "cache" fqdn then randint 35 45 s
    else if strIn "kafka" fqdn || strIn "mq" fqdn then randint 50 60 s
    else if strIn "nas" fqdn || strIn "san" fqdn || strIn "minio" fqdn ||
        strIn "obj" fqdn then randint 70 80 s
    else if strIn "lb" fqdn then randint 5 9 s
    else randint 90 99 s
  let (host, s) := randint 10 250 s
  (base ++ "." ++ toString subnet ++ "." ++ toString host, s)

/-- `DemoDataGenerator.get_vlan_for_type`. -/
def getVlanForType (fqdn : String) (s : GenState) : Nat × GenState :=
  if strIn "app" fqdn || strIn "web" fqdn || strIn "portal" fqdn ||
      strIn "mobile" fqdn || strIn "api" fqdn then randint 100 199 s
  else if strIn "db" fqdn || strIn "redis" fqdn || strIn "cache" fqdn then
    randint 200 299 s
  else if strIn "nas" fqdn || strIn "san" fqdn || strIn "minio" fqdn ||
      strIn "obj" fqdn then randint 300 399 s
  else if strIn "lb" fqdn then randint 10 20 s
  else randint 100 199 s

/-- `DemoDataGenerator.get_port_for_type`. -/
def getPortForType (fqdn : String) : Nat :=
  if strIn "redis" fqdn || strIn "cache" fqdn then 6379
  else if strIn "kafka" fqdn || strIn "mq" fqdn then 9092
  else if strIn "db" fqdn then 5432
  else if strIn "nas" fqdn || strIn "nfs" fqdn then 2049
  else if strIn "san" fqdn then 3260
  else if strIn "minio" fqdn || strIn "obj" fqdn then 9000
  else if strIn "lb" fqdn then 443
  else 443

/-- The subtypes whose parent type is `ctypeName`
(`determine_subtype`'s `valid_subtypes`). -/
def validSubtypesFor (refd : RefData) (ctypeName : String) :
    List (String × Nat) :=
  refd.componentSubtypes.filter
    (fun p => lookupNat refd.subtypeParent p.2 = some ctypeName)

/-- First valid subtype whose lowered name contains `pat`. -/
def findSubtype1 (valid : List (String × Nat)) (pat : String) : Option Nat :=
  (valid.find? (fun p => strInLower pat p.1)).map (fun p => p.2)

/-- First valid subtype whose lowered name contains `pat1` or `pat2`. -/
def findSubtype2 (valid : List (String × Nat)) (pat1 pat2 : String) :
    Option Nat :=
  (valid.find? (fun p => strInLower pat1 p.1 || strInLower pat2 p.1)).map
    (fun p => p.2)

/-- `DemoDataGenerator.determine_subtype`. -/
def determineSubtype (refd : RefData) (fqdn ctypeName : String) : Option Nat :=
  match validSubtypesFor refd ctypeName with
  | [] => none
  | v :: vs =>
    let valid := v :: vs
    let fl := lowerStr fqdn
    let patterned : Option Nat :=
      if ctypeName = "application" then
        let first : Option Nat :=
          if strIn "api" fl || strIn "service" fl then findSubtype1 valid "api"
          else if strIn "batch" fl || strIn "job" fl then
            findSubtype1 valid "batch"
          else none
        match first with
        | some i => some i
        | none => findSubtype1 valid "web"
      else if ctypeName = "polyglot_persistence" then
        if strIn "redis" fl || strIn "cache" fl then findSubtype1 valid "cache"
        else if strIn "kafka" fl || strIn "mq" fl then
          findSubtype2 valid "message" "queue"
        else if strIn "db" fl then findSubtype1 valid "relational"
        else none
      else if ctypeName = "block_level_persistence" then
        if strIn "nas" fl then findSubtype2 valid "network_attached" "nas"
        else if strIn "san" fl then findSubtype2 valid "storage_area" "san"
        else if strIn "minio" fl || strIn "obj" fl then
          findSubtype1 valid "object"
        else none
      else if ctypeName = "networking" then
        if strIn "lb" fl || strIn "load" fl then findSubtype1 valid "load"
        else none
      else none
    match patterned with
    | some i => some i
    | none => some v.2

/-- Split on a separator character, Python `s.split(sep)` (the list is never
empty: the empty string splits to `[""]`). -/
def splitOnChar (sep : Char) : List Char → List (List Char)
  | [] => [[]]
  | c :: t =>
    if c = sep then [] :: splitOnChar sep t
    else
      match splitOnChar sep t with
      | [] => [[c]]
      | p :: ps => (c :: p) :: ps

/-- `DemoDataGenerator.get_short_name`. -/
def getShortName (fqdn : String) : String :=
  let parts := (splitOnChar '.' fqdn.data).map String.mk
  if 4 ≤ parts.length then parts.getD 0 "" ++ "." ++ parts.getD 2 ""
  else parts.getD 0 fqdn

end Gen

namespace Gen

/-- A placeholder component used as the (never consulted) default of indexed
accesses whose bounds the call sites guarantee. -/
def dummyComponent : Component :=
  { component_id := 0, physical_location_id := 0, vlan := 0, ip := "",
    port := 0, mac := "", app_code := "", protocol_id := 0,
    record_quality_grade := "", component_type_id := 0,
    component_subtype_id := 0, description := "", environment_id := 0,
    abstraction_level_id := 0, ops_status_id := 0, created_at := 0,
    created_by := "", updated_at := 0, updated_by := "", fqdn := none }

/-- The per-quality field block of `create_component` (the
`is_pending` branch): record quality, optional fqdn, app code, description,
ip, mac, vlan and port. -/
structure FieldVals where
  quality : String
  fqdnValue : Option String
  appCode : String
  desc : String
  ip : String
  mac : String
  vlan : Nat
  port : Nat
  deriving Repr, DecidableEq

/-- The draw-dependent field computation of `create_component`: decides
pending state, then fills the fields exactly as the minimal / partial /
complete branches do (draws mirror source order). -/
def componentFieldDraws (ps : Params) (fqdn locationName description : String)
    (cid : Nat) (s : GenState) : FieldVals × GenState :=
  let (u, s) := drawFloat s
  if floatLt u ps.pendingRatio then
    let (lvl, s) := choice ["partial", "minimal"] "partial" s
    if lvl = "minimal" then
      ({ quality := "_PT_RED_RECORD_", fqdnValue := none,
         appCode := "_PT_PENDING_", desc := "_PT_PENDING_", ip := "0.0.0.0",
         mac := "00:00:00:00:00:00", vlan := 1, port := 1 }, s)
    else
      let (u1, s) := drawFloat s
      let fqdnValue := if floatGt u1 (mkRat 1 2) then some fqdn else none
      let (u2, s) := drawFloat s
      let appCode := if floatGt u2 (mkRat 1 2) then "APP" ++ dec3 cid
        else "_PT_PENDING_"
      let (u3, s) := drawFloat s
      let desc := if floatGt u3 (mkRat 1 2) then description
        else "_PT_PENDING_"
      let (u4, s) := drawFloat s
      let (ip, s) := if floatGt u4 (mkRat 3 10) then
          getIpForLocationAndType locationName fqdn s
        else ("0.0.0.0", s)
      let (u5, s) := drawFloat s
      let (mac, s) := if floatGt u5 (mkRat 3 10) then getNextMac s
        else ("00:00:00:00:00:00", s)
      let (u6, s) := drawFloat s
      let (vlan, s) := if floatGt u6 (mkRat 3 10) then getVlanForType fqdn s
        else (1, s)
      let (u7, s) := drawFloat s
      let port := if floatGt u7 (mkRat 3 10) then getPortForType fqdn else 1
      ({ quality := "_PT_YELLOW_RECORD_", fqdnValue := fqdnValue,
         appCode := appCode, desc := desc, ip := ip, mac := mac,
         vlan := vlan, port := port }, s)
  else
    let (ip, s) := getIpForLocationAndType locationName fqdn s
    let (mac, s) := getNextMac s
    let (vlan, s) := getVlanForType fqdn s
    ({ quality := "_PT_GREEN_RECORD_", fqdnValue := some fqdn,
       appCode := "APP" ++ dec3 cid, desc := description, ip := ip,
       mac := mac, vlan := vlan, port := getPortForType fqdn }, s)

/-- `DemoDataGenerator.create_component`: validate the location and type,
fill the fields according to the pending draw, and append the record. -/
def createComponent (refd : RefData) (ps : Params)
    (fqdn locationName ctypeName description statusName abstractionName :
      String) (s : GenState) : Option Component × GenState :=
  match lookupStr refd.physicalLocations locationName with
  | none => (none, s)
  | some locId =>
    match lookupStr refd.componentTypes ctypeName with
    | none => (none, s)
    | some ctypeId =>
      let statusName := if (lookupStr refd.statuses statusName).isSome then
          statusName else "OPERATIONAL"
      let abstractionName :=
        if (lookupStr refd.abstractionLevels abstractionName).isSome then
          abstractionName else "virtual_machine"
      let cid := s.componentIdCounter
      let (fv, s) := componentFieldDraws ps fqdn locationName description cid s
      let subtypeId :=
        match determineSubtype refd
          (if fv.fqdnValue.isSome then fqdn else "unknown") ctypeName with
        | some i => i
        | none => 999
      let (t1, s) := nowT s
      let (t2, s) := nowT s
      let c : Component :=
        { component_id := cid, physical_location_id := locId,
          vlan := fv.vlan, ip := fv.ip, port := fv.port, mac := fv.mac,
          app_code := fv.appCode,
          protocol_id := (lookupStr refd.protocols "HTTPS").getD 999,
          record_quality_grade := fv.quality, component_type_id := ctypeId,
          component_subtype_id := subtypeId, description := fv.desc,
          environment_id := (lookupStr refd.environments "PROD").getD 999,
          abstraction_level_id :=
            (lookupStr refd.abstractionLevels abstractionName).getD 999,
          ops_status_id := (lookupStr refd.statuses statusName).getD 999,
          created_at := t1, created_by := "demo_data_generator_v2",
          updated_at := t2, updated_by := "demo_data_generator_v2",
          fqdn := fv.fqdnValue }
      let s2 := { s with components := s.components ++ [c],
                         componentIdCounter := cid + 1 }
      (some c, s2)

/-- Lookup in `component_map` (the id-index of `components`). -/
def findComp (s : GenState) (cid : Nat) : Option Component :=
  s.components.find? (fun c => c.component_id = cid)

/-- `DemoDataGenerator.create_relationship`: `None` for an unknown type name
or an unknown endpoint, otherwise append the validated edge. -/
def createRelationship (refd : RefData) (componentId relatedId : Nat)
    (relTypeName description : String) (s : GenState) :
    Option Relationship × GenState :=
  match lookupStr refd.relationshipTypes relTypeName with
  | none => (none, s)
  | some rtId =>
    match findComp s componentId, findComp s relatedId with
    | some c1, some c2 =>
      let n1 := getShortName
        (c1.fqdn.getD ("component_" ++ toString c1.component_id))
      let n2 := getShortName
        (c2.fqdn.getD ("component_" ++ toString c2.component_id))
      let full := n1 ++ " =[" ++ relTypeName ++ "]=> " ++ n2 ++ ": " ++
        description
      let (t1, s) := nowT s
      let (t2, s) := nowT s
      let r : Relationship :=
        { relationship_id := s.relationshipIdCounter,
          component_id := componentId, related_component_id := relatedId,
          relationship_type_id := rtId, description := full,
          created_at := t1, created_by := "demo_data_generator",
          updated_at := t2, updated_by := "demo_data_generator" }
      let s2 := { s with relationships := s.relationships ++ [r],
                         relationshipIdCounter := s.relationshipIdCounter + 1 }
      (some r, s2)
    | _, _ => (none, s)

/-- `DemoDataGenerator.get_dc_code`. -/
def getDcCode (location : String) : String :=
  if strIn "DC01" location || strIn "AL" location then "dc01"
  else if strIn "DC02" location || strIn "NC" location then "dc02"
  else if strIn "DC03" location || strIn "VA" location then "dc03"
  else "dc01"

/-- Component totals per scale (`scale_configs`); the type ratios are the
same for all three scales. -/
def scaleTotal (scale : String) : Nat :=
  if scale = "small" then 50
  else if scale = "medium" then 200
  else if scale = "large" then 500
  else 0

/-- `int(total * ratio)` of `generate_components` with `ratio = pct / 100`.
The Python expression uses IEEE doubles; for the fixed ratios 0.60 / 0.12 /
0.08 / 0.05 / 0.08 / 0.04 and totals 50 / 200 / 500 the double result
truncates to the same value as the exact `total * pct / 100` taken here
(checked case by case). -/
def ratioCount (total pct : Nat) : Nat :=
  total * pct / 100

/-- `concentration_configs[app_concentration]` (min, max). -/
def concentrationConfig (c : String) : Nat × Nat :=
  if c = "low" then (3, 5)
  else if c = "medium" then (8, 12)
  else (15, 20)

/-- The application description pool of `generate_components`. -/
def descriptionsPool : List String :=
  ["Customer-facing banking application",
   "Internal operations portal",
   "Mobile banking backend service",
   "API gateway for third-party integrations",
   "Batch processing job scheduler",
   "Microservice for account management",
   "Web portal for loan applications",
   "ATM network communication service"]

/-- The application-generation loop of `generate_components`. -/
def genApps (refd : RefData) (ps : Params) (locations : List String)
    (count : Nat) (s : GenState) : GenState :=
  (List.range' 1 count).foldl (fun s i =>
    let (location, s) := choice locations "" s
    let (appType, s) := choice
      ["webapp", "portal", "mobile", "api", "service", "internal", "batch"]
      "" s
    let fqdn := appType ++ dec2 i ++ ".prod." ++ getDcCode location ++
      ".regions.com"
    let (u, s) := drawFloat s
    let status := if floatGt u (mkRat 3 20) then "OPERATIONAL"
      else "DEGRADED"
    let (d, s) := choice descriptionsPool "" s
    (createComponent refd ps fqdn location "application" d status
      "virtual_machine" s).2) s

/-- The database-generation loop of `generate_components`
(alternating primary / secondary names). -/
def genDbs (refd : RefData) (ps : Params) (locations : List String)
    (count : Nat) (s : GenState) : GenState :=
  (List.range' 1 count).foldl (fun s i =>
    let (location, s) := choice locations "" s
    let dbType := if i % 2 = 1 then "pri" else "sec"
    let fqdn := "db" ++ dec2 i ++ dbType ++ ".prod." ++ getDcCode location ++
      ".regions.com"
    let d := (if dbType = "pri" then "Primary" else "Secondary") ++
      " database for critical data"
    (createComponent refd ps fqdn location "polyglot_persistence" d
      "OPERATIONAL" "virtual_machine" s).2) s

/-- The cache-generation loop of `generate_components`. -/
def genCaches (refd : RefData) (ps : Params) (locations : List String)
    (count : Nat) (s : GenState) : GenState :=
  (List.range' 1 count).foldl (fun s i =>
    let (location, s) := choice locations "" s
    let (cacheType, s) := choice ["redis", "cache"] "" s
    let fqdn := cacheType ++ dec2 i ++ ".prod." ++ getDcCode location ++
      ".regions.com"
    (createComponent refd ps fqdn location "polyglot_persistence"
      "High-performance cache for session/API data" "OPERATIONAL"
      "virtual_machine" s).2) s

/-- The message-queue-generation loop of `generate_components`. -/
def genMqs (refd : RefData) (ps : Params) (locations : List String)
    (count : Nat) (s : GenState) : GenState :=
  (List.range' 1 count).foldl (fun s i =>
    let (location, s) := choice locations "" s
    let (mqType, s) := choice ["kafka", "mq"] "" s
    let fqdn := mqType ++ dec2 i ++ ".prod." ++ getDcCode location ++
      ".regions.com"
    (createComponent refd ps fqdn location "polyglot_persistence"
      "Message broker for event streaming" "OPERATIONAL"
      "virtual_machine" s).2) s

/-- The storage-generation loop of `generate_components`. -/
def genStorage (refd : RefData) (ps : Params) (locations : List String)
    (count : Nat) (s : GenState) : GenState :=
  (List.range' 1 count).foldl (fun s i =>
    let (location, s) := choice locations "" s
    let (storageType, s) := choice ["nas", "san", "minio", "obj"] "" s
    let fqdn := storageType ++ dec2 i ++ ".prod." ++ getDcCode location ++
      ".regions.com"
    (createComponent refd ps fqdn location "block_level_persistence"
      "Enterprise storage for documents and backups" "OPERATIONAL"
      "virtual_machine" s).2) s

/-- The load-balancer-generation loop of `generate_components`. -/
def genLbs (refd : RefData) (ps : Params) (locations : List String)
    (count : Nat) (s : GenState) : GenState :=
  (List.range' 1 count).foldl (fun s i =>
    let (location, s) := choice locations "" s
    let fqdn := "lb" ++ dec2 i ++ ".prod." ++ getDcCode location ++
      ".regions.com"
    (createComponent refd ps fqdn location "networking"
      "Load balancer for application traffic distribution" "OPERATIONAL"
      "virtual_machine" s).2) s

/-- `DemoDataGenerator.generate_components`. -/
def generateComponents (refd : RefData) (ps : Params) (s : GenState) :
    GenState :=
  let total := scaleTotal ps.scale
  let appCount := ratioCount total 60
  let dbCount := ratioCount total 12
  let cacheCount := ratioCount total 8
  let mqCount := ratioCount total 5
  let storageCount := ratioCount total 8
  let lbCount := ratioCount total 4
  let locations := refd.physicalLocations.map (fun p => p.1)
  if locations.isEmpty then s
  else
    let s := genApps refd ps locations appCount s
    let s := genDbs refd ps locations dbCount s
    let s := genCaches refd ps locations cacheCount s
    let s := genMqs refd ps locations mqCount s
    let s := genStorage refd ps locations storageCount s
    genLbs refd ps locations lbCount s

end Gen

namespace Gen

/-- Grouping key of `generate_relationships`: the component's fqdn, or the
`pending_<id>` placeholder when the fqdn key is absent. -/
def groupFqdn (c : Component) : String :=
  c.fqdn.getD ("pending_" ++ toString c.component_id)

/-- First branch of the grouping chain: application-like fqdn. -/
def isAppFqdn (f : String) : Bool :=
  strIn "app" f || strIn "portal" f || strIn "mobile" f || strIn "api" f ||
  strIn "service" f

/-- The `component_<id>` / fqdn fallback used in pattern log strings. -/
def shortNameOf (c : Component) : String :=
  getShortName (c.fqdn.getD ("component_" ++ toString c.component_id))

/-- `DemoDataGenerator.create_hub_database_pattern`. -/
def createHubDatabasePattern (refd : RefData) (ps : Params)
    (apps dbs : List Component) (s : GenState) : GenState :=
  let hubDb := ((dbs.find? (fun d => strIn "pri" (d.fqdn.getD ""))).getD
    (dbs.getD 0 dummyComponent))
  let conc := concentrationConfig ps.appConcentration
  let (numApps, s) := randint conc.1 conc.2 s
  let numApps := min numApps apps.length
  let (selected, s) := sample apps numApps s
  let s := selected.foldl (fun s app =>
    (createRelationship refd app.component_id hubDb.component_id
      "persists_to"
      ("HUB PATTERN: One of " ++ toString numApps ++
        " apps using central database") s).2) s
  { s with problemsCreated := s.problemsCreated ++
      ["Hub database with " ++ toString numApps ++ " dependent applications"] }

/-- The first capture of `re.search(r'db(\d+)', fqdn)`: the maximal digit run
after the first occurrence of `db` that is followed by a digit. -/
def dbNumSearch : List Char → Option String
  | [] => none
  | c :: rest =>
    if c = 'd' then
      match rest with
      | 'b' :: rest2 =>
        let ds := rest2.takeWhile Char.isDigit
        if ds.isEmpty then dbNumSearch rest else some (String.mk ds)
      | _ => dbNumSearch rest
    else dbNumSearch rest

/-- Insertion-ordered grouping `db_pairs` of `create_failover_patterns`. -/
def addPair (pairs : List (String × List Component)) (k : String)
    (c : Component) : List (String × List Component) :=
  if pairs.any (fun p => p.1 = k) then
    pairs.map (fun p => if p.1 = k then (p.1, p.2 ++ [c]) else p)
  else pairs ++ [(k, [c])]

/-- Group the databases by extracted number (skipping records with an empty
or unmatched fqdn, as the source does). -/
def dbPairs (dbs : List Component) : List (String × List Component) :=
  dbs.foldl (fun pairs db =>
    let f := db.fqdn.getD ""
    if f = "" then pairs
    else
      match dbNumSearch f.data with
      | none => pairs
      | some k => addPair pairs k db) []

/-- `DemoDataGenerator.create_failover_patterns`. -/
def createFailoverPatterns (refd : RefData) (dbs : List Component)
    (s : GenState) : GenState :=
  (dbPairs dbs).foldl (fun s pair =>
    if 2 ≤ pair.2.length then
      match pair.2.find? (fun d => strIn "pri" (d.fqdn.getD "")),
        pair.2.find? (fun d => strIn "sec" (d.fqdn.getD "")) with
      | some primary, some secondary =>
        if primary.physical_location_id = secondary.physical_location_id then
          let s := (createRelationship refd primary.component_id
            secondary.component_id "fails_over_to"
            "ISSUE: Same-DC failover - no real disaster recovery!" s).2
          { s with problemsCreated := s.problemsCreated ++
              ["Same-DC failover: " ++ shortNameOf primary] }
        else
          let s := (createRelationship refd primary.component_id
            secondary.component_id "fails_over_to"
            "GOOD: Cross-DC failover for proper disaster recovery" s).2
          { s with goodPatternsCreated := s.goodPatternsCreated ++
              ["Cross-DC failover: " ++ shortNameOf primary] }
      | _, _ => s
    else s) s

/-- `DemoDataGenerator.create_cache_patterns`. -/
def createCachePatterns (refd : RefData) (ps : Params)
    (apps caches : List Component) (s : GenState) : GenState :=
  caches.foldl (fun s cache =>
    let (numApps, s) := randint 2 5 s
    let (selected, s) := sample apps (min numApps apps.length) s
    selected.foldl (fun s app =>
      if app.physical_location_id = cache.physical_location_id then
        let s := (createRelationship refd app.component_id
          cache.component_id "persists_to"
          "GOOD: Co-located cache for low latency" s).2
        { s with goodPatternsCreated := s.goodPatternsCreated ++
            ["Co-located cache: " ++ shortNameOf app] }
      else
        let (u, s) := drawFloat s
        if floatLt u ps.problemRatio then
          let s := (createRelationship refd app.component_id
            cache.component_id "persists_to"
            "ISSUE: Cross-datacenter cache access adding latency" s).2
          { s with problemsCreated := s.problemsCreated ++
              ["Cross-DC cache: " ++ shortNameOf app] }
        else
          (createRelationship refd app.component_id cache.component_id
            "persists_to"
            "Cross-DC cache access (acceptable for this use case)" s).2) s) s

/-- `DemoDataGenerator.create_mq_patterns`. -/
def createMqPatterns (refd : RefData) (apps mqs : List Component)
    (s : GenState) : GenState :=
  let s := mqs.foldl (fun s mq =>
    let (numPublishers, s) := randint 1 3 s
    let (publishers, s) := sample apps (min numPublishers apps.length) s
    let s := publishers.foldl (fun s pub =>
      (createRelationship refd pub.component_id mq.component_id
        "publishes_to" "Publishing events to message queue" s).2) s
    let (numSubscribers, s) := randint 2 5 s
    let (subscribers, s) := sample apps (min numSubscribers apps.length) s
    subscribers.foldl (fun s sub =>
      (createRelationship refd sub.component_id mq.component_id
        "subscribes_to" "Subscribing to events from message queue" s).2) s) s
  let kafkaNodes := mqs.filter (fun m => strIn "kafka" (m.fqdn.getD ""))
  if 2 ≤ kafkaNodes.length then
    let primary := kafkaNodes.getD 0 dummyComponent
    if (kafkaNodes.map (fun k => k.physical_location_id)).dedup.length = 1
    then
      let s := (kafkaNodes.drop 1).foldl (fun s replica =>
        (createRelationship refd replica.component_id primary.component_id
          "replicates_from"
          "ISSUE: All Kafka replicas in same datacenter!" s).2) s
      { s with problemsCreated := s.problemsCreated ++
          ["Kafka cluster with no geographic distribution"] }
    else
      let s := (kafkaNodes.drop 1).foldl (fun s replica =>
        (createRelationship refd replica.component_id primary.component_id
          "replicates_from"
          "GOOD: Geographic distribution for Kafka cluster" s).2) s
      { s with goodPatternsCreated := s.goodPatternsCreated ++
          ["Properly distributed Kafka cluster"] }
  else s

/-- `DemoDataGenerator.create_lb_patterns`. -/
def createLbPatterns (refd : RefData) (apps lbs : List Component)
    (s : GenState) : GenState :=
  lbs.foldl (fun s lb =>
    let (numApps, s) := randint 3 8 s
    let (selected, s) := sample apps (min numApps apps.length) s
    selected.foldl (fun s app =>
      if app.physical_location_id = lb.physical_location_id then
        (createRelationship refd app.component_id lb.component_id
          "proxied_by" "Load balanced for high availability" s).2
      else
        (createRelationship refd app.component_id lb.component_id
          "proxied_by" "Cross-DC load balancing (higher latency)" s).2) s) s

/-- `DemoDataGenerator.create_circular_dependency`. -/
def createCircularDependency (refd : RefData) (apps : List Component)
    (s : GenState) : GenState :=
  let (circ, s) := sample apps 3 s
  let a := circ.getD 0 dummyComponent
  let b := circ.getD 1 dummyComponent
  let c := circ.getD 2 dummyComponent
  let s := (createRelationship refd a.component_id b.component_id
    "consumes_api_from" "ISSUE: Part of circular dependency chain" s).2
  let s := (createRelationship refd b.component_id c.component_id
    "consumes_api_from" "ISSUE: Part of circular dependency chain" s).2
  let s := (createRelationship refd c.component_id a.component_id
    "consumes_api_from" "ISSUE: Circular dependency - potential deadlock!"
    s).2
  { s with problemsCreated := s.problemsCreated ++
      ["Circular dependency between " ++ shortNameOf a ++ ", " ++
        shortNameOf b ++ ", " ++ shortNameOf c] }

/-- `DemoDataGenerator.create_orphaned_components`: rewrite the description
of every component that appears in no relationship. -/
def createOrphanedComponents (s : GenState) : GenState :=
  let withRels := s.relationships.foldl (fun acc r =>
    acc ++ [r.component_id, r.related_component_id]) []
  let orphanedCount := (s.components.filter
    (fun c => ¬ withRels.contains c.component_id)).length
  let comps := s.components.map (fun c =>
    if withRels.contains c.component_id then c
    else { c with description :=
      "ORPHANED: " ++ c.description ++ " - No active connections!" })
  let s := { s with components := comps }
  if orphanedCount ≠ 0 then
    { s with problemsCreated := s.problemsCreated ++
        [toString orphanedCount ++ " orphaned components wasting resources"] }
  else s

/-- `DemoDataGenerator.generate_relationships`: group the components by fqdn
keywords, then run the pattern builders under the source's guards. -/
def generateRelationships (refd : RefData) (ps : Params) (s : GenState) :
    GenState :=
  let apps := s.components.filter (fun c => isAppFqdn (groupFqdn c))
  let dbs := s.components.filter (fun c =>
    ¬ isAppFqdn (groupFqdn c) ∧ strIn "db" (groupFqdn c))
  let caches := s.components.filter (fun c =>
    ¬ isAppFqdn (groupFqdn c) ∧ ¬ strIn "db" (groupFqdn c) ∧
    (strIn "redis" (groupFqdn c) ∨ strIn "cache" (groupFqdn c)))
  let mqs := s.components.filter (fun c =>
    ¬ isAppFqdn (groupFqdn c) ∧ ¬ strIn "db" (groupFqdn c) ∧
    ¬ (strIn "redis" (groupFqdn c) ∨ strIn "cache" (groupFqdn c)) ∧
    (strIn "kafka" (groupFqdn c) ∨ strIn "mq" (groupFqdn c)))
  let lbs := s.components.filter (fun c =>
    ¬ isAppFqdn (groupFqdn c) ∧ ¬ strIn "db" (groupFqdn c) ∧
    ¬ (strIn "redis" (groupFqdn c) ∨ strIn "cache" (groupFqdn c)) ∧
    ¬ (strIn "kafka" (groupFqdn c) ∨ strIn "mq" (groupFqdn c)) ∧
    ¬ (strIn "nas" (groupFqdn c) ∨ strIn "san" (groupFqdn c) ∨
       strIn "minio" (groupFqdn c) ∨ strIn "obj" (groupFqdn c)) ∧
    strIn "lb" (groupFqdn c))
  let s := if ¬ dbs.isEmpty ∧ ¬ apps.isEmpty then
      createHubDatabasePattern refd ps apps dbs s
    else s
  let s := if 2 ≤ dbs.length then createFailoverPatterns refd dbs s else s
  let s := if ¬ apps.isEmpty ∧ ¬ caches.isEmpty then
      createCachePatterns refd ps apps caches s
    else s
  let s := if ¬ apps.isEmpty ∧ ¬ mqs.isEmpty then
      createMqPatterns refd apps mqs s
    else s
  let s := if ¬ apps.isEmpty ∧ ¬ lbs.isEmpty then
      createLbPatterns refd apps lbs s
    else s
  let s := if 3 ≤ apps.length then
      let (u, s2) := drawFloat s
      if floatLt u ps.problemRatio then createCircularDependency refd apps s2
      else s2
    else s
  createOrphanedComponents s

/-- The generation pipeline of `generate_excel` after reference data is
loaded: components then relationships. -/
def runGeneration (refd : RefData) (ps : Params) (s : GenState) : GenState :=
  generateRelationships refd ps (generateComponents refd ps s)

/-- The fresh state of `DemoDataGenerator.__init__` together with the two
oracle streams induced by the seed (`rand`) and the wall clock (`time`). -/
def initState (rand time : List Nat) : GenState :=
  { rand := rand, time := time, components := [], relationships := [],
    componentIdCounter := 1, relationshipIdCounter := 1, macCounter := 1,
    problemsCreated := [], goodPatternsCreated := [] }

end Gen

namespace Graph

/-- A default node for indexed access in theorem statements. -/
def dummyNode : GNode :=
  { data := { id := "", name := "", ip := "", vlan := "", location := "" },
    style := { borderColor := "", borderWidth := 0, opacity := none } }

/-- The neighborhood predicate of claim C3: the node matches the search term
or shares an edge with a matching node. -/
def nbrKeep (nodes : List GNode) (edges : List GEdge) (term : String)
    (n : GNode) : Bool :=
  nodeMatches term n.data ||
  nodes.any (fun m => nodeMatches term m.data &&
    edges.any (fun e =>
      (e.source = m.data.id && e.target = n.data.id) ||
      (e.target = m.data.id && e.source = n.data.id)))

/-- The connection count that `_calculate_node_size` consults for a
non-uniform sizing mode. -/
def relevantCount (c : SizedComp) (mode : String) : Nat :=
  if mode = "hierarchical" then c.child_count
  else if mode = "dependencies" then
    c.relationship_from_count + c.relationship_to_count
  else if mode = "peer" then c.peer_relationship_count
  else c.total_relationship_count

/-- A matching node over a dangling edge: concrete input for claim C3. -/
def cNode1 : GNode :=
  { data := { id := "1", name := "webapp01.prod.dc01.regions.com",
              ip := "10.1.10.10", vlan := "100", location := "DC01_AL" },
    style := { borderColor := "#000000", borderWidth := 2, opacity := none } }

/-- An edge from `cNode1` to an id that no node carries. -/
def cEdge1 : GEdge := { source := "1", target := "2" }

/-- A non-matching second node with id `2`. -/
def cNode2 : GNode :=
  { data := { id := "2", name := "db01pri.prod.dc02.regions.com",
              ip := "10.2.30.11", vlan := "200", location := "DC02_NC" },
    style := { borderColor := "#000000", borderWidth := 2, opacity := none } }

end Graph

namespace Gen

/-- Reference data as seeded by the BAIS schema scripts (the generator loads
it from the `demo` schema at run time); one legitimate instance is enough for
the concrete runs below, and the universal theorems take the tables as
parameters. -/
def stdRef : RefData :=
  { componentTypes := [("application", 1), ("polyglot_persistence", 2),
      ("block_level_persistence", 3), ("networking", 4)],
    componentSubtypes := [("web_application", 1), ("api_service", 2),
      ("batch_application", 3), ("relational_database", 5),
      ("nosql_database", 6), ("message_queue", 7), ("cache", 8),
      ("network_attached_storage", 9), ("storage_area_network", 10),
      ("object_storage", 11), ("load_balancer", 12)],
    subtypeParent := [(1, "application"), (2, "application"),
      (3, "application"), (5, "polyglot_persistence"),
      (6, "polyglot_persistence"), (7, "polyglot_persistence"),
      (8, "polyglot_persistence"), (9, "block_level_persistence"),
      (10, "block_level_persistence"), (11, "block_level_persistence"),
      (12, "networking")],
    environments := [("DEV", 1), ("UAT", 2), ("STAGE", 3), ("PROD", 4)],
    statuses := [("OPERATIONAL", 1), ("DEGRADED", 2), ("MAINTENANCE", 3)],
    abstractionLevels := [("physical_server", 1), ("virtual_machine", 2),
      ("container", 3)],
    physicalLocations := [("DC01_AL", 1), ("DC02_NC", 2), ("DC03_VA", 3)],
    relationshipTypes := [("persists_to", 1), ("fails_over_to", 2),
      ("replicates_from", 3), ("consumes_api_from", 4), ("publishes_to", 5),
      ("subscribes_to", 6), ("proxied_by", 7), ("authenticates_via", 8),
      ("monitors", 9)],
    protocols := [("HTTP", 1), ("HTTPS", 2), ("TCP", 3)] }

/-- Small scale with the default problem ratio 0.3. -/
def psSmall : Params :=
  { scale := "small", problemRatio := mkRat 3 10,
    appConcentration := "medium", pendingRatio := mkRat 0 1 }

/-- Medium scale with the default problem ratio 0.3. -/
def psMedium : Params :=
  { scale := "medium", problemRatio := mkRat 3 10,
    appConcentration := "medium", pendingRatio := mkRat 0 1 }

/-- Small scale with problem ratio 0. -/
def psSmallZero : Params :=
  { scale := "small", problemRatio := mkRat 0 1,
    appConcentration := "medium", pendingRatio := mkRat 0 1 }

/-- Small scale with problem ratio 1. -/
def psSmallOne : Params :=
  { scale := "small", problemRatio := mkRat 1 1,
    appConcentration := "medium", pendingRatio := mkRat 0 1 }

/-- A concrete `create_component` invocation on the fresh state. -/
def sampleCreate : Option Component × GenState :=
  createComponent stdRef psSmall "webapp01.prod.dc01.regions.com" "DC01_AL"
    "application" "Customer-facing banking application" "OPERATIONAL"
    "virtual_machine" (initState [] [])

/-- A minimal application-like component with a given id. -/
def cComp (i : Nat) : Component :=
  { dummyComponent with
      component_id := i,
      fqdn := some ("api0" ++ toString i ++ ".prod.dc01.regions.com") }

/-- A state holding three distinct applications, for concrete checks. -/
def circState : GenState :=
  { initState [] [] with components := [cComp 1, cComp 2, cComp 3] }

/-- Well-formedness of a stored relationship for claim C9: both endpoints
resolve in `component_map` and the type id is a known relationship type. -/
def relWellFormed (refd : RefData) (s : GenState) (r : Relationship) : Prop :=
  (findComp s r.component_id).isSome = true ∧
  (findComp s r.related_component_id).isSome = true ∧
  ∃ p ∈ refd.relationshipTypes, p.2 = r.relationship_type_id

/-- Projection of a relationship to its graph content
(source, target, type id). -/
def relEdge (r : Relationship) : Nat × Nat × Nat :=
  (r.component_id, r.related_component_id, r.relationship_type_id)

/-- Zero out the two timestamp fields of a component (claim C8 compares
runs up to `created_at` / `updated_at`). -/
def eraseTimesC (c : Component) : Component :=
  { c with created_at := 0, updated_at := 0 }

/-- Zero out the two timestamp fields of a relationship. -/
def eraseTimesR (r : Relationship) : Relationship :=
  { r with created_at := 0, updated_at := 0 }

/-- Everything the generator's control flow and outputs depend on, with
timestamps erased and the time stream dropped: the observation used for the
determinism claim C8. -/
structure ObsState where
  rand : List Nat
  comps : List Component
  rels : List Relationship
  cid : Nat
  rid : Nat
  mac : Nat
  problems : List String
  good : List String
  deriving Repr

/-- The observation of a generator state. -/
def obs (s : GenState) : ObsState :=
  { rand := s.rand, comps := s.components.map eraseTimesC,
    rels := s.relationships.map eraseTimesR, cid := s.componentIdCounter,
    rid := s.relationshipIdCounter, mac := s.macCounter,
    problems := s.problemsCreated, good := s.goodPatternsCreated }

/-- Observation equivalence of two generator states. -/
def SEqv (s1 s2 : GenState) : Prop := obs s1 = obs s2

/-- Component equivalence up to timestamps. -/
def CEqv (c1 c2 : Component) : Prop := eraseTimesC c1 = eraseTimesC c2

/-- Zero the clock stream and erase all stored timestamps: the normal form
of a state for the time-independence claim C8.  Every pipeline stage
commutes with it, because no stage ever reads a stored timestamp or
branches on the clock. -/
def normState (s : GenState) : GenState :=
  { rand := s.rand, time := [], components := s.components.map eraseTimesC,
    relationships := s.relationships.map eraseTimesR,
    componentIdCounter := s.componentIdCounter,
    relationshipIdCounter := s.relationshipIdCounter,
    macCounter := s.macCounter, problemsCreated := s.problemsCreated,
    goodPatternsCreated := s.goodPatternsCreated }

end Gen

open Graph Analytics Gen in
/-- Helper: membership of `List.getD` for a nonempty index bound. -/
theorem getD_mem_of_lt {α : Type} (l : List α) (i : Nat) (d : α)
    (h : i < l.length) : l.getD i d ∈ l := by
  rw [List.getD_eq_getElem l d h]
  exact List.getElem_mem h

/-- Claim C10: a node's size is exactly 30 in uniform mode, otherwise
`min (20 + 2 * count) 60` for the mode's connection count, and it always lies
between 20 and 60 inclusive. -/
theorem graph_node_size_spec (c : Graph.SizedComp) (mode : String)
    (h : mode ≠ "uniform") :
    Graph.calcNodeSize c "uniform" = 30 ∧
    Graph.calcNodeSize c mode = min (20 + 2 * Graph.relevantCount c mode) 60 ∧
    (∀ m : String, 20 ≤ Graph.calcNodeSize c m ∧ Graph.calcNodeSize c m ≤ 60)
    := by
  refine ⟨by simp [Graph.calcNodeSize], ?_, ?_⟩
  · simp only [Graph.calcNodeSize, Graph.relevantCount, if_neg h]
    omega
  · intro m
    by_cases hm : m = "uniform" <;>
      simp only [Graph.calcNodeSize, hm, if_true, if_false, reduceIte] <;>
      omega

/-- Witness for C10 at a concrete component and the `peer` mode. -/
theorem graph_node_size_spec_witness :
    Graph.calcNodeSize ⟨1, 2, 3, 4, 5⟩ "peer" =
      min (20 + 2 * Graph.relevantCount ⟨1, 2, 3, 4, 5⟩ "peer") 60 :=
  (graph_node_size_spec ⟨1, 2, 3, 4, 5⟩ "peer" (by decide)).2.1

/-- Claim C4: the search filter leaves the list unchanged for an empty term;
for a non-empty term it removes no node and keeps every node's data, giving
matches a gold border of width 4 and setting every non-match's opacity
to 0.3. -/
theorem graph_search_filter_spec (nodes : List Graph.GNode) (t : String)
    (ht : t ≠ "") (i : Nat) (hi : i < nodes.length) :
    Graph.applySearchFilter nodes "" = nodes ∧
    (Graph.applySearchFilter nodes t).length = nodes.length ∧
    ((Graph.applySearchFilter nodes t).getD i Graph.dummyNode).data =
      (nodes.getD i Graph.dummyNode).data ∧
    (Graph.nodeMatches t (nodes.getD i Graph.dummyNode).data = true →
      ((Graph.applySearchFilter nodes t).getD i Graph.dummyNode).style =
        { (nodes.getD i Graph.dummyNode).style with
            borderColor := "#FFD700", borderWidth := 4 }) ∧
    (Graph.nodeMatches t (nodes.getD i Graph.dummyNode).data = false →
      ((Graph.applySearchFilter nodes t).getD i Graph.dummyNode).style =
        { (nodes.getD i Graph.dummyNode).style with
            opacity := some (3 / 10 : ℚ) }) := by
  have hmap : Graph.applySearchFilter nodes t = nodes.map (fun n =>
      if Graph.nodeMatches t n.data then Graph.highlightNode n
      else Graph.fadeNode n) := by
    simp [Graph.applySearchFilter, ht]
  have hlen : (Graph.applySearchFilter nodes t).length = nodes.length := by
    rw [hmap, List.length_map]
  have hget : (Graph.applySearchFilter nodes t).getD i Graph.dummyNode =
      (if Graph.nodeMatches t (nodes.getD i Graph.dummyNode).data then
        Graph.highlightNode (nodes.getD i Graph.dummyNode)
      else Graph.fadeNode (nodes.getD i Graph.dummyNode)) := by
    rw [hmap, List.getD_eq_getElem _ _ (by simpa using hi),
      List.getD_eq_getElem _ _ hi, List.getElem_map]
  refine ⟨by simp [Graph.applySearchFilter], hlen, ?_, ?_, ?_⟩
  · rw [hget]
    split <;> rfl
  · intro hm
    rw [hget, if_pos hm]
    rfl
  · intro hm
    rw [hget, if_neg (by rw [hm]; decide)]
    rfl

/-- Witness for C4 at a one-node list and the term `web`. -/
theorem graph_search_filter_spec_witness :
    Graph.nodeMatches "web" ([Graph.cNode1].getD 0 Graph.dummyNode).data =
      true ∧
    ((Graph.applySearchFilter [Graph.cNode1] "web").getD 0
        Graph.dummyNode).style =
      { ([Graph.cNode1].getD 0 Graph.dummyNode).style with
          borderColor := "#FFD700", borderWidth := 4 } :=
  ⟨by decide,
    (graph_search_filter_spec [Graph.cNode1] "web" (by decide) 0
      (by decide)).2.2.2.1 (by decide)⟩

/-- Counterexample to claim C3 as stated: over a dangling edge (its target id
belongs to no node) the filter keeps an edge whose target is not among the
kept nodes, so the returned edges are not "exactly the edges whose source and
target are both among those kept nodes". -/
theorem graph_neighborhood_filter_counterexample :
    (Graph.applyNeighborhoodFilter [Graph.cNode1] [Graph.cEdge1] "web").2 ≠
      [Graph.cEdge1].filter (fun e =>
        ((Graph.applyNeighborhoodFilter [Graph.cNode1] [Graph.cEdge1]
            "web").1.map (fun n => n.data.id)).contains e.source &&
        ((Graph.applyNeighborhoodFilter [Graph.cNode1] [Graph.cEdge1]
            "web").1.map (fun n => n.data.id)).contains e.target) ∧
    (Graph.applyNeighborhoodFilter [Graph.cNode1] [Graph.cEdge1] "web").2 =
      [Graph.cEdge1] ∧
    (Graph.applyNeighborhoodFilter [Graph.cNode1] [Graph.cEdge1]
        "web").1.map (fun n => n.data.id) = ["1"] := by
  refine ⟨?_, by decide, by decide⟩
  decide

/-- Helper: membership in one step of the `connected_ids` accumulation. -/
theorem mem_connectedStep (matched : List String) (acc : List String)
    (e : Graph.GEdge) (x : String) :
    (x ∈ (if e.target ∈ matched then
        (if e.source ∈ matched then acc ++ [e.target] else acc) ++ [e.source]
      else (if e.source ∈ matched then acc ++ [e.target] else acc))) ↔
    x ∈ acc ∨ (e.source ∈ matched ∧ e.target = x) ∨
      (e.target ∈ matched ∧ e.source = x) := by
  by_cases h1 : e.source ∈ matched <;> by_cases h2 : e.target ∈ matched <;>
    simp [h1, h2, List.mem_append, eq_comm, or_assoc]

/-- Helper: membership in the full `connected_ids` list. -/
theorem mem_connectedFold (matched : List String) (edges : List Graph.GEdge)
    (x : String) :
    x ∈ Graph.connectedFold matched edges ↔
      x ∈ matched ∨ ∃ e ∈ edges,
        (e.source ∈ matched ∧ e.target = x) ∨
        (e.target ∈ matched ∧ e.source = x) := by
  unfold Graph.connectedFold
  suffices h : ∀ acc : List String,
      (x ∈ edges.foldl (fun acc e =>
        if e.target ∈ matched then
          (if e.source ∈ matched then acc ++ [e.target] else acc) ++
            [e.source]
        else (if e.source ∈ matched then acc ++ [e.target] else acc)) acc) ↔
      x ∈ acc ∨ ∃ e ∈ edges,
        (e.source ∈ matched ∧ e.target = x) ∨
        (e.target ∈ matched ∧ e.source = x) by
    exact h matched
  induction edges with
  | nil => intro acc; simp
  | cons e es ih =>
    intro acc
    rw [List.foldl_cons, ih, mem_connectedStep]
    simp only [List.mem_cons]
    constructor
    · rintro ((hx | hc | hc) | ⟨e', he', hc⟩)
      · exact Or.inl hx
      · exact Or.inr ⟨e, Or.inl rfl, Or.inl hc⟩
      · exact Or.inr ⟨e, Or.inl rfl, Or.inr hc⟩
      · exact Or.inr ⟨e', Or.inr he', hc⟩
    · rintro (hx | ⟨e', (rfl | he'), hc⟩)
      · exact Or.inl (Or.inl hx)
      · rcases hc with hc | hc
        · exact Or.inl (Or.inr (Or.inl hc))
        · exact Or.inl (Or.inr (Or.inr hc))
      · exact Or.inr ⟨e', he', hc⟩

/-- Claim C3 (amended): for a non-empty term, distinct node ids, and edges
whose endpoints are all ids of listed nodes, the neighborhood filter keeps
exactly the nodes that match or share an edge with a matching node (data
unchanged) and exactly the edges with both endpoints among the kept nodes;
with no match it returns the inputs unchanged. -/
theorem graph_neighborhood_filter_amended (nodes : List Graph.GNode)
    (edges : List Graph.GEdge) (t : String) (ht : t ≠ "")
    (hclosed : ∀ e ∈ edges, e.source ∈ nodes.map (fun n => n.data.id) ∧
      e.target ∈ nodes.map (fun n => n.data.id))
    (hnodup : (nodes.map (fun n => n.data.id)).Nodup) :
    ((∀ n ∈ nodes, Graph.nodeMatches t n.data = false) →
      Graph.applyNeighborhoodFilter nodes edges t = (nodes, edges)) ∧
    ((∃ n ∈ nodes, Graph.nodeMatches t n.data = true) →
      (Graph.applyNeighborhoodFilter nodes edges t).1.map (fun n => n.data) =
        (nodes.filter (Graph.nbrKeep nodes edges t)).map (fun n => n.data) ∧
      (Graph.applyNeighborhoodFilter nodes edges t).2 =
        edges.filter (fun e =>
          ((nodes.filter (Graph.nbrKeep nodes edges t)).map
              (fun n => n.data.id)).contains e.source &&
          ((nodes.filter (Graph.nbrKeep nodes edges t)).map
              (fun n => n.data.id)).contains e.target)) := by
  constructor
  · intro hnone
    have hfil : nodes.filter (fun n => Graph.nodeMatches t n.data) = [] :=
      List.filter_eq_nil_iff.mpr (fun n hn => by simp [hnone n hn])
    simp only [Graph.applyNeighborhoodFilter, if_neg ht, hfil, List.map_nil]
    exact if_pos trivial
  · intro hmatch
    obtain ⟨n0, hn0, hp0⟩ := hmatch
    have hmem0 : n0.data.id ∈ (nodes.filter
        (fun n => Graph.nodeMatches t n.data)).map (fun n => n.data.id) :=
      List.mem_map_of_mem _ (List.mem_filter.mpr ⟨hn0, hp0⟩)
    have hmne : (nodes.filter (fun n => Graph.nodeMatches t n.data)).map
        (fun n => n.data.id) ≠ [] := List.ne_nil_of_mem hmem0
    -- membership in matched equals matching, by distinctness of ids
    have hmatched : ∀ n ∈ nodes,
        (n.data.id ∈ (nodes.filter
          (fun n => Graph.nodeMatches t n.data)).map (fun n => n.data.id)) ↔
        Graph.nodeMatches t n.data = true := by
      intro n hn
      constructor
      · intro hx
        obtain ⟨m, hmf, hid⟩ := List.mem_map.mp hx
        obtain ⟨hmn, hpm⟩ := List.mem_filter.mp hmf
        have := List.inj_on_of_nodup_map hnodup hmn hn hid
        exact this ▸ hpm
      · intro hp
        exact List.mem_map_of_mem _ (List.mem_filter.mpr ⟨hn, hp⟩)
    -- the kept-node characterization
    have hkeep : ∀ n ∈ nodes,
        (n.data.id ∈ Graph.connectedFold
          ((nodes.filter (fun n => Graph.nodeMatches t n.data)).map
            (fun n => n.data.id)) edges) ↔
        Graph.nbrKeep nodes edges t n = true := by
      intro n hn
      rw [mem_connectedFold]
      simp only [Graph.nbrKeep, Bool.or_eq_true, List.any_eq_true,
        Bool.and_eq_true, Bool.or_eq_true, decide_eq_true_eq]
      constructor
      · rintro (hx | ⟨e, he, hc⟩)
        · exact Or.inl ((hmatched n hn).mp hx)
        · rcases hc with ⟨hsm, htg⟩ | ⟨htm, hsr⟩
          · obtain ⟨m, hmf, hid⟩ := List.mem_map.mp hsm
            obtain ⟨hmn, hpm⟩ := List.mem_filter.mp hmf
            exact Or.inr ⟨m, hmn, hpm, e, he, Or.inl ⟨hid.symm, htg⟩⟩
          · obtain ⟨m, hmf, hid⟩ := List.mem_map.mp htm
            obtain ⟨hmn, hpm⟩ := List.mem_filter.mp hmf
            exact Or.inr ⟨m, hmn, hpm, e, he, Or.inr ⟨hid.symm, hsr⟩⟩
      · rintro (hp | ⟨m, hmn, hpm, e, he, hc⟩)
        · exact Or.inl ((hmatched n hn).mpr hp)
        · have hmm : m.data.id ∈ (nodes.filter
              (fun n => Graph.nodeMatches t n.data)).map
              (fun n => n.data.id) :=
            List.mem_map_of_mem _ (List.mem_filter.mpr ⟨hmn, hpm⟩)
          rcases hc with ⟨hs, htg⟩ | ⟨htg2, hs2⟩
          · exact Or.inr ⟨e, he, Or.inl ⟨by rw [hs]; exact hmm, htg⟩⟩
          · exact Or.inr ⟨e, he, Or.inr ⟨by rw [htg2]; exact hmm, hs2⟩⟩
    -- unfold the filter result in the matched branch
    have hres : Graph.applyNeighborhoodFilter nodes edges t =
        ((nodes.filter (fun n => n.data.id ∈ Graph.connectedFold
            ((nodes.filter (fun n => Graph.nodeMatches t n.data)).map
              (fun n => n.data.id)) edges)).map
          (fun n => if n.data.id ∈ (nodes.filter
              (fun n => Graph.nodeMatches t n.data)).map (fun n => n.data.id)
            then Graph.highlightNode n else n),
         edges.filter (fun e =>
           e.source ∈ Graph.connectedFold
             ((nodes.filter (fun n => Graph.nodeMatches t n.data)).map
               (fun n => n.data.id)) edges ∧
           e.target ∈ Graph.connectedFold
             ((nodes.filter (fun n => Graph.nodeMatches t n.data)).map
               (fun n => n.data.id)) edges)) := by
      simp only [Graph.applyNeighborhoodFilter, if_neg ht, if_neg hmne]
    constructor
    · rw [hres]
      have hfc : nodes.filter (fun n => decide (n.data.id ∈
          Graph.connectedFold ((nodes.filter
            (fun n => Graph.nodeMatches t n.data)).map (fun n => n.data.id))
            edges)) =
          nodes.filter (Graph.nbrKeep nodes edges t) :=
        List.filter_congr (fun n hn => by
          by_cases hm : n.data.id ∈ Graph.connectedFold ((nodes.filter
              (fun n => Graph.nodeMatches t n.data)).map (fun n => n.data.id))
              edges
          · simp [hm, (hkeep n hn).mp hm]
          · have hk : Graph.nbrKeep nodes edges t n = false := by
              rcases Bool.eq_false_or_eq_true
                (Graph.nbrKeep nodes edges t n) with h | h
              · exact absurd ((hkeep n hn).mpr h) hm
              · exact h
            simp [hm, hk])
      simp only [List.map_map]
      rw [hfc]
      apply List.map_congr_left
      intro n _
      by_cases hm : n.data.id ∈ (nodes.filter
          (fun n => Graph.nodeMatches t n.data)).map (fun n => n.data.id) <;>
        simp [hm, Graph.highlightNode]
    · rw [hres]
      apply List.filter_congr
      intro e he
      obtain ⟨hs, htg⟩ := hclosed e he
      obtain ⟨ns, hns, hnsid⟩ := List.mem_map.mp hs
      obtain ⟨nt, hnt, hntid⟩ := List.mem_map.mp htg
      have hiff : ∀ (m : Graph.GNode), m ∈ nodes →
          ((m.data.id ∈ Graph.connectedFold ((nodes.filter
            (fun n => Graph.nodeMatches t n.data)).map (fun n => n.data.id))
            edges) ↔
          m.data.id ∈ (nodes.filter (Graph.nbrKeep nodes edges t)).map
            (fun n => n.data.id)) := by
        intro m hm
        constructor
        · intro hx
          exact List.mem_map_of_mem _
            (List.mem_filter.mpr ⟨hm, (hkeep m hm).mp hx⟩)
        · intro hx
          obtain ⟨m', hm'f, hid⟩ := List.mem_map.mp hx
          obtain ⟨hm'n, hkm'⟩ := List.mem_filter.mp hm'f
          exact hid ▸ (hkeep m' hm'n).mpr hkm'
      rw [← hnsid, ← hntid]
      simp only [List.contains, List.elem_eq_mem]
      simp only [(hiff ns hns), (hiff nt hnt)]
      exact Bool.decide_and _ _

/-- Witness for the amended C3 on a two-node graph whose edge endpoints are
node ids: the kept nodes are the matching node and its neighbor. -/
theorem graph_neighborhood_filter_amended_witness :
    (Graph.applyNeighborhoodFilter [Graph.cNode1, Graph.cNode2]
        [Graph.cEdge1] "web").1.map (fun n => n.data) =
      (([Graph.cNode1, Graph.cNode2].filter
        (Graph.nbrKeep [Graph.cNode1, Graph.cNode2] [Graph.cEdge1]
          "web"))).map (fun n => n.data) :=
  ((graph_neighborhood_filter_amended [Graph.cNode1, Graph.cNode2]
      [Graph.cEdge1] "web" (by decide)
      (by intro e he; constructor <;> simp at he <;> simp [he] <;> decide)
      (by decide)).2
    ⟨Graph.cNode1, by simp, by decide⟩).1


/-- Helper: a key found in the left part of an association list is unaffected
by an appended tail. -/
theorem lookup_append_left {β : Type} (l1 l2 : List (String × β)) (k : String)
    (h : (l1.lookup k).isSome = true) :
    ((l1 ++ l2).lookup k) = l1.lookup k := by
  induction l1 with
  | nil => simp [List.lookup] at h
  | cons a t ih =>
    rw [List.cons_append]
    by_cases hk : k == a.1
    · simp [List.lookup, hk]
    · rw [Bool.not_eq_true] at hk
      simp only [List.lookup, hk] at h ⊢
      exact ih h

/-- Helper: lookups of the components-derived metrics
(`AnalyticsEngine.calculate_metrics`, components section). -/
theorem componentMetrics_lookup (cdf : Analytics.CompDF) :
    (Analytics.componentMetrics cdf).lookup "total_components" =
      some ((cdf.rows.length : ℚ)) ∧
    (cdf.hasRelCount = true →
      (Analytics.componentMetrics cdf).lookup "avg_connections" =
        some (((cdf.rows.map
            (fun r => r.total_relationship_count)).sum : ℚ) /
          (cdf.rows.length : ℚ))) ∧
    (cdf.hasQuality = true →
      (Analytics.componentMetrics cdf).lookup "green_records" =
        some (((cdf.rows.filter (fun r =>
          r.record_quality_grade = "_PT_GREEN_RECORD_")).length : ℚ)) ∧
      (Analytics.componentMetrics cdf).lookup "yellow_records" =
        some (((cdf.rows.filter (fun r =>
          r.record_quality_grade = "_PT_YELLOW_RECORD_")).length : ℚ)) ∧
      (Analytics.componentMetrics cdf).lookup "red_records" =
        some (((cdf.rows.filter (fun r =>
          r.record_quality_grade = "_PT_RED_RECORD_")).length : ℚ))) := by
  cases h3 : cdf.hasProtocolName <;> cases h4 : cdf.hasMac <;>
    cases h5 : cdf.hasQuality <;> cases h6 : cdf.hasRelCount <;>
    simp [Analytics.componentMetrics, h3, h4, h5, h6, List.lookup]

/-- Helper: for a loaded non-empty components DataFrame, `calculate_metrics`
only appends dependency/relationship entries after the components section, so
keys resolved there keep their value. -/
theorem calcMetrics_lookup_core (d : Analytics.DataDict)
    (cdf : Analytics.CompDF) (k : String) (hc : d.components = some cdf)
    (hne : cdf.rows ≠ [])
    (h : ((Analytics.componentMetrics cdf).lookup k).isSome = true) :
    (Analytics.calcMetrics d).lookup k =
      (Analytics.componentMetrics cdf).lookup k := by
  have hE : cdf.rows.isEmpty = false := by
    cases hr : cdf.rows with
    | nil => exact absurd hr hne
    | cons a t => simp
  obtain ⟨dcomp, ddeps, drels⟩ := d
  have hcc : dcomp = some cdf := hc
  subst hcc
  rcases ddeps with _ | ⟨_ | ⟨dr0, drt⟩, dda, ddb⟩ <;>
    rcases drels with _ | (_ | ⟨rr0, rrt⟩) <;>
    simp only [Analytics.calcMetrics, hE, Bool.false_eq_true, if_false,
      List.isEmpty_nil, List.isEmpty_cons, reduceIte] <;>
    first
    | rfl
    | rw [lookup_append_left _ _ _ h]
    | rw [List.append_assoc, lookup_append_left _ _ _ h]

/-- Claim C6: on a loaded dictionary with a non-empty components DataFrame,
`calculate_metrics` reports `total_components` as the row count,
`avg_connections` as the mean of `total_relationship_count` (when that column
is present), and the green/yellow/red record counts (when the quality column
is present); with the DataFrame absent or empty it returns the empty metrics
dictionary. -/
theorem analytics_metrics_spec (d : Analytics.DataDict)
    (cdf : Analytics.CompDF) (hc : d.components = some cdf)
    (hne : cdf.rows ≠ []) :
    (Analytics.calcMetrics d).lookup "total_components" =
      some ((cdf.rows.length : ℚ)) ∧
    (cdf.hasRelCount = true →
      (Analytics.calcMetrics d).lookup "avg_connections" =
        some (((cdf.rows.map
            (fun r => r.total_relationship_count)).sum : ℚ) /
          (cdf.rows.length : ℚ))) ∧
    (cdf.hasQuality = true →
      (Analytics.calcMetrics d).lookup "green_records" =
        some (((cdf.rows.filter (fun r =>
          r.record_quality_grade = "_PT_GREEN_RECORD_")).length : ℚ)) ∧
      (Analytics.calcMetrics d).lookup "yellow_records" =
        some (((cdf.rows.filter (fun r =>
          r.record_quality_grade = "_PT_YELLOW_RECORD_")).length : ℚ)) ∧
      (Analytics.calcMetrics d).lookup "red_records" =
        some (((cdf.rows.filter (fun r =>
          r.record_quality_grade = "_PT_RED_RECORD_")).length : ℚ))) ∧
    (∀ d2 : Analytics.DataDict, d2.components = none →
      Analytics.calcMetrics d2 = []) ∧
    (∀ (d2 : Analytics.DataDict) (cdf2 : Analytics.CompDF),
      d2.components = some cdf2 → cdf2.rows = [] →
      Analytics.calcMetrics d2 = []) := by
  obtain ⟨h1, h2, h3⟩ := componentMetrics_lookup cdf
  refine ⟨?_, ?_, ?_, ?_, ?_⟩
  · rw [calcMetrics_lookup_core d cdf _ hc hne (by rw [h1]; rfl)]
    exact h1
  · intro h6
    rw [calcMetrics_lookup_core d cdf _ hc hne (by rw [h2 h6]; rfl)]
    exact h2 h6
  · intro h5
    obtain ⟨hg, hy, hr⟩ := h3 h5
    exact ⟨by rw [calcMetrics_lookup_core d cdf _ hc hne
        (by rw [hg]; rfl)]; exact hg,
      by rw [calcMetrics_lookup_core d cdf _ hc hne
        (by rw [hy]; rfl)]; exact hy,
      by rw [calcMetrics_lookup_core d cdf _ hc hne
        (by rw [hr]; rfl)]; exact hr⟩
  · intro d2 h2b
    obtain ⟨d2c, d2d, d2r⟩ := d2
    have hd : d2c = none := h2b
    subst hd
    simp [Analytics.calcMetrics]
  · intro d2 cdf2 h2b hrows
    obtain ⟨d2c, d2d, d2r⟩ := d2
    have hd : d2c = some cdf2 := h2b
    subst hd
    simp [Analytics.calcMetrics, hrows]

/-- Witness for C6 on the two-row sample DataFrame. -/
theorem analytics_metrics_spec_witness :
    (Analytics.calcMetrics Analytics.sampleData).lookup "total_components" =
      some ((Analytics.sampleDF.rows.length : ℚ)) :=
  (analytics_metrics_spec Analytics.sampleData Analytics.sampleDF rfl
    (by decide)).1

/-- Helper: the explicit form of one raw random draw. -/
theorem drawNat_eq (s : Gen.GenState) :
    Gen.drawNat s = (s.rand.headD 0, { s with rand := s.rand.tail }) := by
  obtain ⟨r, tm, cs, rs, ci, ri, mc, pr, gp⟩ := s
  cases r <;> rfl

/-- Helper: the explicit form of a `random.random()` draw. -/
theorem drawFloat_eq (s : Gen.GenState) :
    Gen.drawFloat s =
      (s.rand.headD 0 % 2 ^ 53, { s with rand := s.rand.tail }) := by
  simp [Gen.drawFloat, drawNat_eq]

/-- Helper: the explicit form of a `randint` draw. -/
theorem randint_eq (a b : Nat) (s : Gen.GenState) :
    Gen.randint a b s =
      (a + s.rand.headD 0 % (b + 1 - a), { s with rand := s.rand.tail }) := by
  simp [Gen.randint, drawNat_eq]

/-- Helper: the explicit form of a `choice` draw. -/
theorem choice_eq {α : Type} (l : List α) (dflt : α) (s : Gen.GenState) :
    Gen.choice l dflt s =
      (l.getD (s.rand.headD 0 % l.length) dflt,
        { s with rand := s.rand.tail }) := by
  simp [Gen.choice, drawNat_eq]

/-- Helper: the explicit form of a clock reading. -/
theorem nowT_eq (s : Gen.GenState) :
    Gen.nowT s = (s.time.headD 0, { s with time := s.time.tail }) := by
  obtain ⟨r, tm, cs, rs, ci, ri, mc, pr, gp⟩ := s
  cases tm <;> rfl

/-- Helper: reading the clock leaves every non-time state field unchanged. -/
theorem nowT_components (s : Gen.GenState) :
    (Gen.nowT s).2.components = s.components := by
  rcases hs : s.time with _ | ⟨a, t⟩ <;> simp [Gen.nowT, hs]

/-- Helper: reading the clock leaves the relationships unchanged. -/
theorem nowT_relationships (s : Gen.GenState) :
    (Gen.nowT s).2.relationships = s.relationships := by
  rcases hs : s.time with _ | ⟨a, t⟩ <;> simp [Gen.nowT, hs]

/-- Helper: reading the clock leaves the relationship counter unchanged. -/
theorem nowT_rid (s : Gen.GenState) :
    (Gen.nowT s).2.relationshipIdCounter = s.relationshipIdCounter := by
  rcases hs : s.time with _ | ⟨a, t⟩ <;> simp [Gen.nowT, hs]

/-- Helper: a successful name lookup exhibits a table entry with that id. -/
theorem lookupStr_some_mem (l : List (String × Nat)) (k : String) (v : Nat)
    (h : Gen.lookupStr l k = some v) : ∃ p ∈ l, p.2 = v := by
  unfold Gen.lookupStr at h
  rcases Option.map_eq_some'.mp h with ⟨p, hp, hv⟩
  exact ⟨p, List.mem_of_find?_eq_some hp, hv⟩

/-- Claim C9: `create_relationship` returns `None` with the state untouched
when the type name is unknown or either endpoint id is not a previously
created component; consequently the well-formedness of all stored
relationships (existing endpoints, known type) is preserved. -/
theorem createRelationship_validation (refd : Gen.RefData) (cid rid : Nat)
    (tname desc : String) (s : Gen.GenState) :
    ((Gen.lookupStr refd.relationshipTypes tname = none ∨
      Gen.findComp s cid = none ∨ Gen.findComp s rid = none) →
      Gen.createRelationship refd cid rid tname desc s = (none, s)) ∧
    ((∀ r ∈ s.relationships, Gen.relWellFormed refd s r) →
      ∀ r ∈ (Gen.createRelationship refd cid rid tname desc
          s).2.relationships,
        Gen.relWellFormed refd
          (Gen.createRelationship refd cid rid tname desc s).2 r) := by
  constructor
  · intro h
    rcases h with h | h | h
    · simp [Gen.createRelationship, h]
    · cases hl : Gen.lookupStr refd.relationshipTypes tname with
      | none => simp [Gen.createRelationship, hl]
      | some v => simp [Gen.createRelationship, hl, h]
    · cases hl : Gen.lookupStr refd.relationshipTypes tname with
      | none => simp [Gen.createRelationship, hl]
      | some v =>
        cases hc : Gen.findComp s cid with
        | none => simp [Gen.createRelationship, hl, hc]
        | some c1 => simp [Gen.createRelationship, hl, hc, h]
  · intro hwf r hr
    cases hl : Gen.lookupStr refd.relationshipTypes tname with
    | none =>
      simp only [Gen.createRelationship, hl] at hr ⊢
      exact hwf r hr
    | some v =>
      cases hc1 : Gen.findComp s cid with
      | none =>
        simp only [Gen.createRelationship, hl, hc1] at hr ⊢
        exact hwf r hr
      | some c1 =>
        cases hc2 : Gen.findComp s rid with
        | none =>
          simp only [Gen.createRelationship, hl, hc1, hc2] at hr ⊢
          exact hwf r hr
        | some c2 =>
          simp only [Gen.createRelationship, hl, hc1, hc2,
            nowT_relationships] at hr ⊢
          simp only [Gen.relWellFormed, Gen.findComp,
            nowT_components] at hwf ⊢
          rcases List.mem_append.mp hr with hold | hnew
          · exact hwf r hold
          · have hr2 := List.mem_singleton.mp hnew
            subst hr2
            simp only [Gen.findComp] at hc1 hc2
            refine ⟨?_, ?_, lookupStr_some_mem _ _ _ hl⟩
            · rw [hc1]; rfl
            · rw [hc2]; rfl

/-- Witness for C9: an unknown relationship type name is rejected with the
state unchanged. -/
theorem createRelationship_validation_witness :
    Gen.createRelationship Gen.stdRef 5 6 "bogus_type" "d"
      (Gen.initState [] []) = (none, Gen.initState [] []) :=
  (createRelationship_validation Gen.stdRef 5 6 "bogus_type" "d"
    (Gen.initState [] [])).1 (Or.inl (by decide))

/-- Helper: the quality grade chosen by the pending-discovery branch of
`create_component`. -/
theorem componentFieldDraws_quality (ps : Gen.Params)
    (fqdn loc desc : String) (cid : Nat) (s : Gen.GenState) :
    ((Gen.componentFieldDraws ps fqdn loc desc cid s).1.quality =
        "_PT_GREEN_RECORD_" ∨
     (Gen.componentFieldDraws ps fqdn loc desc cid s).1.quality =
        "_PT_YELLOW_RECORD_" ∨
     (Gen.componentFieldDraws ps fqdn loc desc cid s).1.quality =
        "_PT_RED_RECORD_") ∧
    (Gen.floatLt (Gen.drawFloat s).1 ps.pendingRatio = false →
      (Gen.componentFieldDraws ps fqdn loc desc cid s).1.quality =
        "_PT_GREEN_RECORD_") ∧
    (Gen.floatLt (Gen.drawFloat s).1 ps.pendingRatio = true →
      ((Gen.choice ["partial", "minimal"] "partial"
          (Gen.drawFloat s).2).1 = "minimal" →
        (Gen.componentFieldDraws ps fqdn loc desc cid s).1.quality =
          "_PT_RED_RECORD_") ∧
      ((Gen.choice ["partial", "minimal"] "partial"
          (Gen.drawFloat s).2).1 = "partial" →
        (Gen.componentFieldDraws ps fqdn loc desc cid s).1.quality =
          "_PT_YELLOW_RECORD_")) := by
  cases hb : Gen.floatLt (Gen.drawFloat s).1 ps.pendingRatio with
  | false =>
    have hq : (Gen.componentFieldDraws ps fqdn loc desc cid s).1.quality =
        "_PT_GREEN_RECORD_" := by
      simp [Gen.componentFieldDraws, hb]
    exact ⟨Or.inl hq, fun _ => hq, fun hcontra => Bool.noConfusion hcontra⟩
  | true =>
    by_cases hlv : (Gen.choice ["partial", "minimal"] "partial"
        (Gen.drawFloat s).2).1 = "minimal"
    · have hq : (Gen.componentFieldDraws ps fqdn loc desc cid s).1.quality =
          "_PT_RED_RECORD_" := by
        simp [Gen.componentFieldDraws, hb, hlv]
      refine ⟨Or.inr (Or.inr hq), fun hcontra => Bool.noConfusion hcontra,
        fun _ => ⟨fun _ => hq, fun hp => ?_⟩⟩
      rw [hp] at hlv
      exact absurd hlv (by decide)
    · have hq : (Gen.componentFieldDraws ps fqdn loc desc cid s).1.quality =
          "_PT_YELLOW_RECORD_" := by
        simp [Gen.componentFieldDraws, hb, hlv]
      exact ⟨Or.inr (Or.inl hq), fun hcontra => Bool.noConfusion hcontra,
        fun _ => ⟨fun hm => absurd hm hlv, fun _ => hq⟩⟩

/-- Claim C5: every component record built by `create_component` carries a
quality grade in {GREEN, YELLOW, RED}; a complete record (the pending draw
fails) is GREEN, a pending record is YELLOW when the missing level drawn is
`partial` and RED when it is `minimal`. -/
theorem component_quality_grade_spec (refd : Gen.RefData) (ps : Gen.Params)
    (fqdn loc ct desc st ab : String) (s : Gen.GenState)
    (c : Gen.Component) (s2 : Gen.GenState)
    (h : Gen.createComponent refd ps fqdn loc ct desc st ab s =
      (some c, s2)) :
    (c.record_quality_grade = "_PT_GREEN_RECORD_" ∨
     c.record_quality_grade = "_PT_YELLOW_RECORD_" ∨
     c.record_quality_grade = "_PT_RED_RECORD_") ∧
    (Gen.floatLt (Gen.drawFloat s).1 ps.pendingRatio = false →
      c.record_quality_grade = "_PT_GREEN_RECORD_") ∧
    (Gen.floatLt (Gen.drawFloat s).1 ps.pendingRatio = true →
      ((Gen.choice ["partial", "minimal"] "partial"
          (Gen.drawFloat s).2).1 = "minimal" →
        c.record_quality_grade = "_PT_RED_RECORD_") ∧
      ((Gen.choice ["partial", "minimal"] "partial"
          (Gen.drawFloat s).2).1 = "partial" →
        c.record_quality_grade = "_PT_YELLOW_RECORD_")) := by
  have hgrade : c.record_quality_grade =
      (Gen.componentFieldDraws ps fqdn loc desc s.componentIdCounter
        s).1.quality := by
    cases hloc : Gen.lookupStr refd.physicalLocations loc with
    | none => simp [Gen.createComponent, hloc] at h
    | some locId =>
      cases hct : Gen.lookupStr refd.componentTypes ct with
      | none => simp [Gen.createComponent, hloc, hct] at h
      | some ctId =>
        simp only [Gen.createComponent, hloc, hct] at h
        obtain ⟨hcl, _⟩ := Prod.mk.injEq .. ▸ h
        have hc := Option.some.inj hcl
        rw [← hc]
  rw [hgrade]
  exact componentFieldDraws_quality ps fqdn loc desc s.componentIdCounter s

/-- Witness for C5: the concrete zero-draw invocation yields a GREEN record
(pending draw fails at pending ratio 0). -/
theorem component_quality_grade_spec_witness :
    (Gen.sampleCreate.1.getD Gen.dummyComponent).record_quality_grade =
      "_PT_GREEN_RECORD_" :=
  (component_quality_grade_spec Gen.stdRef Gen.psSmall
    "webapp01.prod.dc01.regions.com" "DC01_AL" "application"
    "Customer-facing banking application" "OPERATIONAL" "virtual_machine"
    (Gen.initState [] []) (Gen.sampleCreate.1.getD Gen.dummyComponent)
    Gen.sampleCreate.2 rfl).2.1 (by decide)

/-- Helper: mapping commutes with index erasure. -/
theorem map_eraseIdx {α β : Type} (f : α → β) :
    ∀ (l : List α) (i : Nat), (l.eraseIdx i).map f = (l.map f).eraseIdx i
  | [], _ => by simp
  | _ :: _, 0 => by simp [List.eraseIdx]
  | a :: t, i + 1 => by simp [List.eraseIdx, map_eraseIdx f t i]

/-- Helper: an element of a duplicate-free list does not survive erasure of
its own index. -/
theorem get_not_mem_eraseIdx {α : Type} (L : List α) (i : Nat)
    (h : i < L.length) (hnd : L.Nodup) : L.get ⟨i, h⟩ ∉ L.eraseIdx i := by
  rw [List.eraseIdx_eq_take_drop_succ]
  intro hmem
  have hLd : L.drop i = L.get ⟨i, h⟩ :: L.drop (i + 1) :=
    List.drop_eq_getElem_cons h
  have hsplit : L = L.take i ++ (L.get ⟨i, h⟩ :: L.drop (i + 1)) := by
    rw [← hLd, List.take_append_drop]
  have hnd2 : (L.take i ++ (L.get ⟨i, h⟩ :: L.drop (i + 1))).Nodup := by
    rw [← hsplit]; exact hnd
  rw [List.nodup_append] at hnd2
  rcases List.mem_append.mp hmem with hm | hm
  · exact hnd2.2.2 hm (List.mem_cons_self _ _)
  · exact (List.nodup_cons.mp hnd2.2.1).1 hm

/-- Helper: `sample` leaves the component list unchanged. -/
theorem sample_components {α : Type} :
    ∀ (k : Nat) (l : List α) (s : Gen.GenState),
      (Gen.sample l k s).2.components = s.components
  | 0, _, _ => rfl
  | _ + 1, [], _ => rfl
  | k + 1, a :: t, s => by
    simp only [Gen.sample, drawNat_eq]
    exact sample_components k _ _

/-- Helper: `sample` leaves the relationship list unchanged. -/
theorem sample_relationships {α : Type} :
    ∀ (k : Nat) (l : List α) (s : Gen.GenState),
      (Gen.sample l k s).2.relationships = s.relationships
  | 0, _, _ => rfl
  | _ + 1, [], _ => rfl
  | k + 1, a :: t, s => by
    simp only [Gen.sample, drawNat_eq]
    exact sample_relationships k _ _

/-- Helper: `sample` returns `min k (length l)` elements. -/
theorem sample_length {α : Type} :
    ∀ (k : Nat) (l : List α) (s : Gen.GenState),
      (Gen.sample l k s).1.length = min k l.length
  | 0, l, s => by simp [Gen.sample]
  | _ + 1, [], s => by simp [Gen.sample]
  | k + 1, a :: t, s => by
    simp only [Gen.sample, drawNat_eq, List.length_cons]
    rw [sample_length k _ _]
    have hi2 : (s.rand.headD 0 % (t.length + 1)) < (a :: t).length := by
      simpa using Nat.mod_lt (s.rand.headD 0) (Nat.succ_pos t.length)
    rw [List.length_eraseIdx_of_lt hi2]
    simp only [List.length_cons]
    omega

/-- Helper: every sampled element comes from the input list. -/
theorem sample_subset {α : Type} :
    ∀ (k : Nat) (l : List α) (s : Gen.GenState),
      ∀ x ∈ (Gen.sample l k s).1, x ∈ l
  | 0, l, s => by simp [Gen.sample]
  | _ + 1, [], s => by simp [Gen.sample]
  | k + 1, a :: t, s => by
    simp only [Gen.sample, drawNat_eq]
    intro x hx
    rcases List.mem_cons.mp hx with hx | hx
    · subst hx
      exact getD_mem_of_lt _ _ _ (Nat.mod_lt _ (by simp))
    · exact List.Sublist.mem (sample_subset k _ _ x hx)
        (List.eraseIdx_sublist _ _)

/-- Helper: sampling preserves the distinctness of a projection. -/
theorem sample_nodup {α β : Type} (f : α → β) :
    ∀ (k : Nat) (l : List α) (s : Gen.GenState),
      (l.map f).Nodup → (((Gen.sample l k s).1).map f).Nodup
  | 0, l, s => by simp [Gen.sample]
  | _ + 1, [], s => by simp [Gen.sample]
  | k + 1, a :: t, s => by
    intro hnd
    simp only [Gen.sample, drawNat_eq, List.map_cons]
    rw [List.nodup_cons]
    have hi : (s.rand.headD 0 % (a :: t).length) < (a :: t).length :=
      Nat.mod_lt _ (by simp)
    have hnd2 : (((a :: t).eraseIdx
        (s.rand.headD 0 % (a :: t).length)).map f).Nodup := by
      rw [map_eraseIdx]
      exact List.Nodup.sublist (List.eraseIdx_sublist _ _) hnd
    refine ⟨?_, sample_nodup f k _ _ hnd2⟩
    intro hmem
    rcases List.mem_map.mp hmem with ⟨y, hy, hxy⟩
    have hyl := sample_subset k _ _ y hy
    -- the picked head is the i-th element; equal f-images force it back in
    have hgd : (a :: t).getD (s.rand.headD 0 % (a :: t).length) a =
        (a :: t).get ⟨s.rand.headD 0 % (a :: t).length, hi⟩ := by
      rw [List.getD_eq_getElem _ _ hi]
      rfl
    have hymem : f y ∈ ((a :: t).eraseIdx
        (s.rand.headD 0 % (a :: t).length)).map f :=
      List.mem_map_of_mem f hyl
    rw [map_eraseIdx] at hymem
    have hx2 : f y = ((a :: t).map f).get
        ⟨s.rand.headD 0 % (a :: t).length, by simpa using hi⟩ := by
      rw [hxy, hgd]
      simp only [List.get_eq_getElem, List.getElem_map]
    rw [hx2] at hymem
    exact get_not_mem_eraseIdx ((a :: t).map f) _ (by simpa using hi)
      hnd hymem

/-- Helper: `create_relationship` never touches the component list. -/
theorem createRelationship_components (refd : Gen.RefData) (a b : Nat)
    (tn d : String) (s : Gen.GenState) :
    (Gen.createRelationship refd a b tn d s).2.components = s.components := by
  cases hl : Gen.lookupStr refd.relationshipTypes tn with
  | none => simp [Gen.createRelationship, hl]
  | some v =>
    cases hc1 : Gen.findComp s a with
    | none => simp [Gen.createRelationship, hl, hc1]
    | some c1 =>
      cases hc2 : Gen.findComp s b with
      | none => simp [Gen.createRelationship, hl, hc1, hc2]
      | some c2 =>
        simp [Gen.createRelationship, hl, hc1, hc2, nowT_components]

/-- Helper: a successful `create_relationship` appends exactly one edge with
the requested endpoints and resolved type id. -/
theorem createRelationship_relEdges (refd : Gen.RefData) (a b : Nat)
    (tn d : String) (s : Gen.GenState) (v : Nat)
    (hl : Gen.lookupStr refd.relationshipTypes tn = some v)
    (h1 : (Gen.findComp s a).isSome = true)
    (h2 : (Gen.findComp s b).isSome = true) :
    (Gen.createRelationship refd a b tn d s).2.relationships.map
        Gen.relEdge =
      s.relationships.map Gen.relEdge ++ [(a, b, v)] := by
  rcases Option.isSome_iff_exists.mp h1 with ⟨c1, hc1⟩
  rcases Option.isSome_iff_exists.mp h2 with ⟨c2, hc2⟩
  simp [Gen.createRelationship, hl, hc1, hc2, nowT_relationships,
    Gen.relEdge]

/-- Helper: `findComp` reads only the component list. -/
theorem findComp_congr (s1 s2 : Gen.GenState) (x : Nat)
    (h : s1.components = s2.components) :
    Gen.findComp s1 x = Gen.findComp s2 x := by
  unfold Gen.findComp
  rw [h]

/-- Claim C7: `create_circular_dependency` on at least three applications
with distinct ids creates exactly three `consumes_api_from` relationships
forming the directed cycle app1 -> app2 -> app3 -> app1 over three distinct
applications. -/
theorem circular_dependency_spec (refd : Gen.RefData)
    (apps : List Gen.Component) (s : Gen.GenState) (v : Nat)
    (htype : Gen.lookupStr refd.relationshipTypes "consumes_api_from" =
      some v)
    (hlen : 3 ≤ apps.length)
    (hnodup : (apps.map (fun c => c.component_id)).Nodup)
    (hmem : ∀ a ∈ apps, (Gen.findComp s a.component_id).isSome = true) :
    (Gen.createCircularDependency refd apps s).relationships.map
        Gen.relEdge =
      s.relationships.map Gen.relEdge ++
        [(((Gen.sample apps 3 s).1.getD 0
            Gen.dummyComponent).component_id,
          ((Gen.sample apps 3 s).1.getD 1
            Gen.dummyComponent).component_id, v),
         (((Gen.sample apps 3 s).1.getD 1
            Gen.dummyComponent).component_id,
          ((Gen.sample apps 3 s).1.getD 2
            Gen.dummyComponent).component_id, v),
         (((Gen.sample apps 3 s).1.getD 2
            Gen.dummyComponent).component_id,
          ((Gen.sample apps 3 s).1.getD 0
            Gen.dummyComponent).component_id, v)] ∧
    ((Gen.sample apps 3 s).1.getD 0 Gen.dummyComponent).component_id ≠
      ((Gen.sample apps 3 s).1.getD 1 Gen.dummyComponent).component_id ∧
    ((Gen.sample apps 3 s).1.getD 1 Gen.dummyComponent).component_id ≠
      ((Gen.sample apps 3 s).1.getD 2 Gen.dummyComponent).component_id ∧
    ((Gen.sample apps 3 s).1.getD 0 Gen.dummyComponent).component_id ≠
      ((Gen.sample apps 3 s).1.getD 2 Gen.dummyComponent).component_id ∧
    ((Gen.sample apps 3 s).1.getD 0 Gen.dummyComponent).component_id ∈
      apps.map (fun c => c.component_id) ∧
    ((Gen.sample apps 3 s).1.getD 1 Gen.dummyComponent).component_id ∈
      apps.map (fun c => c.component_id) ∧
    ((Gen.sample apps 3 s).1.getD 2 Gen.dummyComponent).component_id ∈
      apps.map (fun c => c.component_id) := by
  have hplen : (Gen.sample apps 3 s).1.length = 3 := by
    rw [sample_length]
    omega
  obtain ⟨a, b, c, hpicked⟩ := List.length_eq_three.mp hplen
  obtain ⟨s0, hs0⟩ : ∃ s0, Gen.sample apps 3 s = ([a, b, c], s0) :=
    ⟨(Gen.sample apps 3 s).2, by rw [← hpicked]⟩
  have hga : (Gen.sample apps 3 s).1.getD 0 Gen.dummyComponent = a := by
    rw [hpicked]; rfl
  have hgb : (Gen.sample apps 3 s).1.getD 1 Gen.dummyComponent = b := by
    rw [hpicked]; rfl
  have hgc : (Gen.sample apps 3 s).1.getD 2 Gen.dummyComponent = c := by
    rw [hpicked]; rfl
  have hma : a ∈ apps := sample_subset 3 apps s a (by rw [hpicked]; simp)
  have hmb : b ∈ apps := sample_subset 3 apps s b (by rw [hpicked]; simp)
  have hmc : c ∈ apps := sample_subset 3 apps s c (by rw [hpicked]; simp)
  have hnd3 : ([a, b, c].map (fun x => x.component_id)).Nodup := by
    rw [← hpicked]
    exact sample_nodup _ 3 apps s hnodup
  simp only [List.map_cons, List.map_nil, List.nodup_cons,
    List.mem_cons, List.mem_singleton, List.not_mem_nil, or_false,
    not_or, List.nodup_nil, and_true] at hnd3
  -- state after sampling: only the random stream moved
  have hcomp0 : s0.components = s.components := by
    have h := sample_components 3 apps s
    rw [hs0] at h
    exact h
  have hrel0 : s0.relationships = s.relationships := by
    have h := sample_relationships 3 apps s
    rw [hs0] at h
    exact h
  -- the three creation steps
  have hf1a : (Gen.findComp s0 a.component_id).isSome = true := by
    rw [findComp_congr _ s _ hcomp0]
    exact hmem a hma
  have hf1b : (Gen.findComp s0 b.component_id).isSome = true := by
    rw [findComp_congr _ s _ hcomp0]
    exact hmem b hmb
  have hstep1 := createRelationship_relEdges refd a.component_id
    b.component_id "consumes_api_from"
    "ISSUE: Part of circular dependency chain" s0 v htype hf1a hf1b
  have hc1 : (Gen.createRelationship refd a.component_id b.component_id
      "consumes_api_from" "ISSUE: Part of circular dependency chain"
      s0).2.components = s.components := by
    rw [createRelationship_components, hcomp0]
  have hf2b : (Gen.findComp (Gen.createRelationship refd a.component_id
      b.component_id "consumes_api_from"
      "ISSUE: Part of circular dependency chain" s0).2
      b.component_id).isSome = true := by
    rw [findComp_congr _ s _ hc1]
    exact hmem b hmb
  have hf2c : (Gen.findComp (Gen.createRelationship refd a.component_id
      b.component_id "consumes_api_from"
      "ISSUE: Part of circular dependency chain" s0).2
      c.component_id).isSome = true := by
    rw [findComp_congr _ s _ hc1]
    exact hmem c hmc
  have hstep2 := createRelationship_relEdges refd b.component_id
    c.component_id "consumes_api_from"
    "ISSUE: Part of circular dependency chain"
    (Gen.createRelationship refd a.component_id b.component_id
      "consumes_api_from" "ISSUE: Part of circular dependency chain"
      s0).2 v htype hf2b hf2c
  have hc2 : (Gen.createRelationship refd b.component_id c.component_id
      "consumes_api_from" "ISSUE: Part of circular dependency chain"
      (Gen.createRelationship refd a.component_id b.component_id
        "consumes_api_from" "ISSUE: Part of circular dependency chain"
        s0).2).2.components = s.components := by
    rw [createRelationship_components, hc1]
  have hf3c : (Gen.findComp (Gen.createRelationship refd b.component_id
      c.component_id "consumes_api_from"
      "ISSUE: Part of circular dependency chain"
      (Gen.createRelationship refd a.component_id b.component_id
        "consumes_api_from" "ISSUE: Part of circular dependency chain"
        s0).2).2 c.component_id).isSome = true := by
    rw [findComp_congr _ s _ hc2]
    exact hmem c hmc
  have hf3a : (Gen.findComp (Gen.createRelationship refd b.component_id
      c.component_id "consumes_api_from"
      "ISSUE: Part of circular dependency chain"
      (Gen.createRelationship refd a.component_id b.component_id
        "consumes_api_from" "ISSUE: Part of circular dependency chain"
        s0).2).2 a.component_id).isSome = true := by
    rw [findComp_congr _ s _ hc2]
    exact hmem a hma
  have hstep3 := createRelationship_relEdges refd c.component_id
    a.component_id "consumes_api_from"
    "ISSUE: Circular dependency - potential deadlock!"
    (Gen.createRelationship refd b.component_id c.component_id
      "consumes_api_from" "ISSUE: Part of circular dependency chain"
      (Gen.createRelationship refd a.component_id b.component_id
        "consumes_api_from" "ISSUE: Part of circular dependency chain"
        s0).2).2 v htype hf3c hf3a
  refine ⟨?_, by rw [hga, hgb]; exact hnd3.1.1,
    by rw [hgb, hgc]; exact hnd3.2.1,
    by rw [hga, hgc]; exact hnd3.1.2,
    by rw [hga]; exact List.mem_map_of_mem _ hma,
    by rw [hgb]; exact List.mem_map_of_mem _ hmb,
    by rw [hgc]; exact List.mem_map_of_mem _ hmc⟩
  rw [hga, hgb, hgc]
  simp only [Gen.createCircularDependency, hs0]
  simp only [List.getD_cons_zero, List.getD_cons_succ]
  rw [hstep3, hstep2, hstep1, hrel0]
  simp [List.append_assoc]

/-- Witness for C7: the three applications picked on the concrete state have
distinct ids. -/
theorem circular_dependency_spec_witness :
    ((Gen.sample Gen.circState.components 3 Gen.circState).1.getD 0
        Gen.dummyComponent).component_id ≠
      ((Gen.sample Gen.circState.components 3 Gen.circState).1.getD 1
        Gen.dummyComponent).component_id :=
  (circular_dependency_spec Gen.stdRef Gen.circState.components
    Gen.circState 4 (by decide) (by decide) (by decide) (by decide)).2.1

/-- Helper: IP generation touches only the random stream. -/
theorem getIp_components (loc f : String) (s : Gen.GenState) :
    (Gen.getIpForLocationAndType loc f s).2.components = s.components := by
  unfold Gen.getIpForLocationAndType
  simp only [randint_eq]
  repeat' split
  all_goals simp [randint_eq]

/-- Helper: VLAN generation touches only the random stream. -/
theorem getVlan_components (f : String) (s : Gen.GenState) :
    (Gen.getVlanForType f s).2.components = s.components := by
  unfold Gen.getVlanForType
  simp only [randint_eq]
  repeat' split
  all_goals rfl

/-- Helper: allocating a MAC leaves the component list unchanged. -/
theorem getNextMac_components (s : Gen.GenState) :
    (Gen.getNextMac s).2.components = s.components := rfl

set_option maxHeartbeats 1600000 in
/-- Helper: the field-draw block of `create_component` never touches the
component list. -/
theorem componentFieldDraws_components (ps : Gen.Params)
    (f l d : String) (cid : Nat) (s : Gen.GenState) :
    (Gen.componentFieldDraws ps f l d cid s).2.components =
      s.components := by
  unfold Gen.componentFieldDraws
  simp only [drawFloat_eq, choice_eq]
  split
  · split
    · rfl
    · simp only [drawFloat_eq]
      repeat' split
      all_goals
        simp [getIp_components, getVlan_components, getNextMac_components]
  · simp [getIp_components, getVlan_components, getNextMac_components]

set_option maxRecDepth 10000 in
/-- C1 (counterexample): with `problem_ratio = 0` the baseline small run
still injects the hub-database, Kafka-geography and orphaned-component
problems — creating these pattern instances is not governed by
`problem_ratio`. -/
theorem problem_ratio_gating_counterexample :
    Gen.psSmallZero.problemRatio.num = 0 ∧
    (Gen.runGeneration Gen.stdRef Gen.psSmallZero
        (Gen.initState [] [])).problemsCreated =
      ["Hub database with 8 dependent applications",
       "Kafka cluster with no geographic distribution",
       "31 orphaned components wasting resources"] ∧
    (Gen.runGeneration Gen.stdRef Gen.psSmallZero
        (Gen.initState [] [])).relationships.length = 29 :=
  ⟨by decide, by decide, by decide⟩

set_option maxRecDepth 10000 in
/-- C1 (amended): the hub-database pattern is invariant under changes of
`problem_ratio` (it reads only `app_concentration`), and on the baseline
small run raising the ratio from 0 to 1 adds exactly the three
circular-dependency edges: the cross-DC cache labeling and the circular
dependency are the only draws `problem_ratio` governs. -/
theorem problem_ratio_gating_amended (refd : Gen.RefData) (ps : Gen.Params)
    (q : ℚ) (apps dbs : List Gen.Component) (s : Gen.GenState) :
    Gen.createHubDatabasePattern refd { ps with problemRatio := q } apps dbs
        s =
      Gen.createHubDatabasePattern refd ps apps dbs s ∧
    (Gen.runGeneration Gen.stdRef Gen.psSmallOne
          (Gen.initState [] [])).relationships.map Gen.relEdge =
      (Gen.runGeneration Gen.stdRef Gen.psSmallZero
            (Gen.initState [] [])).relationships.map Gen.relEdge ++
        [(1, 2, 4), (2, 3, 4), (3, 1, 4)] :=
  ⟨rfl, by decide⟩

set_option maxRecDepth 10000 in
/-- C2 (counterexample): on the baseline stream the small run produces 32
relationships (below 40) and the medium run produces 106 (above 100). -/
theorem component_relationship_counts_counterexample :
    (Gen.runGeneration Gen.stdRef Gen.psSmall
        (Gen.initState [] [])).relationships.length = 32 ∧
    ¬ (40 : Nat) ≤ 32 ∧
    (Gen.runGeneration Gen.stdRef Gen.psMedium
        (Gen.initState [] [])).relationships.length = 106 ∧
    ¬ (106 : Nat) ≤ 100 :=
  ⟨by decide, by decide, by decide, by decide⟩

/-- Helper: an in-bounds `getD` access is a member. -/
theorem getD_mem {α : Type} (l : List α) (i : Nat) (d : α)
    (h : i < l.length) : l.getD i d ∈ l := by
  rw [List.getD_eq_getElem?_getD, List.getElem?_eq_getElem h]
  exact List.getElem_mem h

/-- Helper: a lookup on a listed key succeeds. -/
theorem lookupStr_isSome_of_mem (l : List (String × Nat)) (k : String)
    (h : k ∈ l.map Prod.fst) : (Gen.lookupStr l k).isSome = true := by
  obtain ⟨p, hp, he⟩ := List.mem_map.mp h
  obtain ⟨x, hx⟩ : ∃ x, l.find? (fun q => q.1 = k) = some x := by
    rw [← Option.isSome_iff_exists, List.find?_isSome]
    exact ⟨p, hp, by simp [he]⟩
  simp [Gen.lookupStr, hx]

/-- Helper: a bounded draw touches only the random stream. -/
theorem randint_components (a b : Nat) (s : Gen.GenState) :
    (Gen.randint a b s).2.components = s.components := by
  rw [randint_eq]

/-- Helper: a float draw touches only the random stream. -/
theorem drawFloat_components (s : Gen.GenState) :
    (Gen.drawFloat s).2.components = s.components := by
  rw [drawFloat_eq]

/-- Helper: a choice draw touches only the random stream. -/
theorem choice_components {α : Type} (l : List α) (d : α)
    (s : Gen.GenState) : (Gen.choice l d s).2.components = s.components := by
  rw [choice_eq]

/-- Helper: a successful `create_component` appends exactly one record. -/
theorem createComponent_length (refd : Gen.RefData) (ps : Gen.Params)
    (fqdn loc ct desc st ab : String) (s : Gen.GenState)
    (hloc : loc ∈ refd.physicalLocations.map Prod.fst)
    (hct : ct ∈ refd.componentTypes.map Prod.fst) :
    (Gen.createComponent refd ps fqdn loc ct desc st ab
        s).2.components.length = s.components.length + 1 := by
  obtain ⟨l1, hl1⟩ :=
    Option.isSome_iff_exists.mp (lookupStr_isSome_of_mem _ _ hloc)
  obtain ⟨l2, hl2⟩ :=
    Option.isSome_iff_exists.mp (lookupStr_isSome_of_mem _ _ hct)
  unfold Gen.createComponent
  rw [hl1, hl2]
  simp [componentFieldDraws_components, nowT_components]

/-- Helper: a fold whose step adds one component adds the list's length. -/
theorem foldl_components_succ {α : Type} (g : Gen.GenState → α → Gen.GenState)
    (hg : ∀ s a, (g s a).components.length = s.components.length + 1) :
    ∀ (l : List α) (s : Gen.GenState),
      (l.foldl g s).components.length = s.components.length + l.length
  | [], s => by simp
  | a :: t, s => by
    simp only [List.foldl_cons, List.length_cons]
    rw [foldl_components_succ g hg t _, hg]
    omega

/-- Helper: a fold whose step preserves the component list preserves it. -/
theorem foldl_components_eq {α : Type} (g : Gen.GenState → α → Gen.GenState)
    (hg : ∀ s a, (g s a).components = s.components) :
    ∀ (l : List α) (s : Gen.GenState),
      (l.foldl g s).components = s.components
  | [], _ => rfl
  | a :: t, s => by
    rw [List.foldl_cons, foldl_components_eq g hg t _, hg]

/-- Helper: the application loop adds exactly `n` components. -/
theorem genApps_length (refd : Gen.RefData) (ps : Gen.Params)
    (locs : List String) (n : Nat) (s : Gen.GenState)
    (hne : locs ≠ [])
    (hsub : ∀ x ∈ locs, x ∈ refd.physicalLocations.map Prod.fst)
    (hct : "application" ∈ refd.componentTypes.map Prod.fst) :
    (Gen.genApps refd ps locs n s).components.length =
      s.components.length + n := by
  unfold Gen.genApps
  rw [foldl_components_succ]
  · simp
  · intro s' i
    simp only [choice_eq, drawFloat_eq]
    rw [createComponent_length]
    · exact hsub _ (getD_mem _ _ _
        (Nat.mod_lt _ (List.length_pos.mpr hne)))
    · exact hct

/-- Helper: the database loop adds exactly `n` components. -/
theorem genDbs_length (refd : Gen.RefData) (ps : Gen.Params)
    (locs : List String) (n : Nat) (s : Gen.GenState)
    (hne : locs ≠ [])
    (hsub : ∀ x ∈ locs, x ∈ refd.physicalLocations.map Prod.fst)
    (hct : "polyglot_persistence" ∈ refd.componentTypes.map Prod.fst) :
    (Gen.genDbs refd ps locs n s).components.length =
      s.components.length + n := by
  unfold Gen.genDbs
  rw [foldl_components_succ]
  · simp
  · intro s' i
    simp only [choice_eq]
    rw [createComponent_length]
    · exact hsub _ (getD_mem _ _ _
        (Nat.mod_lt _ (List.length_pos.mpr hne)))
    · exact hct

/-- Helper: the cache loop adds exactly `n` components. -/
theorem genCaches_length (refd : Gen.RefData) (ps : Gen.Params)
    (locs : List String) (n : Nat) (s : Gen.GenState)
    (hne : locs ≠ [])
    (hsub : ∀ x ∈ locs, x ∈ refd.physicalLocations.map Prod.fst)
    (hct : "polyglot_persistence" ∈ refd.componentTypes.map Prod.fst) :
    (Gen.genCaches refd ps locs n s).components.length =
      s.components.length + n := by
  unfold Gen.genCaches
  rw [foldl_components_succ]
  · simp
  · intro s' i
    simp only [choice_eq]
    rw [createComponent_length]
    · exact hsub _ (getD_mem _ _ _
        (Nat.mod_lt _ (List.length_pos.mpr hne)))
    · exact hct

/-- Helper: the message-queue loop adds exactly `n` components. -/
theorem genMqs_length (refd : Gen.RefData) (ps : Gen.Params)
    (locs : List String) (n : Nat) (s : Gen.GenState)
    (hne : locs ≠ [])
    (hsub : ∀ x ∈ locs, x ∈ refd.physicalLocations.map Prod.fst)
    (hct : "polyglot_persistence" ∈ refd.componentTypes.map Prod.fst) :
    (Gen.genMqs refd ps locs n s).components.length =
      s.components.length + n := by
  unfold Gen.genMqs
  rw [foldl_components_succ]
  · simp
  · intro s' i
    simp only [choice_eq]
    rw [createComponent_length]
    · exact hsub _ (getD_mem _ _ _
        (Nat.mod_lt _ (List.length_pos.mpr hne)))
    · exact hct

/-- Helper: the storage loop adds exactly `n` components. -/
theorem genStorage_length (refd : Gen.RefData) (ps : Gen.Params)
    (locs : List String) (n : Nat) (s : Gen.GenState)
    (hne : locs ≠ [])
    (hsub : ∀ x ∈ locs, x ∈ refd.physicalLocations.map Prod.fst)
    (hct : "block_level_persistence" ∈ refd.componentTypes.map Prod.fst) :
    (Gen.genStorage refd ps locs n s).components.length =
      s.components.length + n := by
  unfold Gen.genStorage
  rw [foldl_components_succ]
  · simp
  · intro s' i
    simp only [choice_eq]
    rw [createComponent_length]
    · exact hsub _ (getD_mem _ _ _
        (Nat.mod_lt _ (List.length_pos.mpr hne)))
    · exact hct

/-- Helper: the load-balancer loop adds exactly `n` components. -/
theorem genLbs_length (refd : Gen.RefData) (ps : Gen.Params)
    (locs : List String) (n : Nat) (s : Gen.GenState)
    (hne : locs ≠ [])
    (hsub : ∀ x ∈ locs, x ∈ refd.physicalLocations.map Prod.fst)
    (hct : "networking" ∈ refd.componentTypes.map Prod.fst) :
    (Gen.genLbs refd ps locs n s).components.length =
      s.components.length + n := by
  unfold Gen.genLbs
  rw [foldl_components_succ]
  · simp
  · intro s' i
    simp only [choice_eq]
    rw [createComponent_length]
    · exact hsub _ (getD_mem _ _ _
        (Nat.mod_lt _ (List.length_pos.mpr hne)))
    · exact hct

/-- Helper: `generate_components` adds exactly the six scale-ratio counts
whenever the reference data lists at least one location and the four type
names the loops use. -/
theorem generateComponents_length (refd : Gen.RefData) (ps : Gen.Params)
    (s : Gen.GenState)
    (hne : refd.physicalLocations ≠ [])
    (hap : "application" ∈ refd.componentTypes.map Prod.fst)
    (hpp : "polyglot_persistence" ∈ refd.componentTypes.map Prod.fst)
    (hbp : "block_level_persistence" ∈ refd.componentTypes.map Prod.fst)
    (hnw : "networking" ∈ refd.componentTypes.map Prod.fst) :
    (Gen.generateComponents refd ps s).components.length =
      s.components.length +
        (Gen.ratioCount (Gen.scaleTotal ps.scale) 60 +
          Gen.ratioCount (Gen.scaleTotal ps.scale) 12 +
          Gen.ratioCount (Gen.scaleTotal ps.scale) 8 +
          Gen.ratioCount (Gen.scaleTotal ps.scale) 5 +
          Gen.ratioCount (Gen.scaleTotal ps.scale) 8 +
          Gen.ratioCount (Gen.scaleTotal ps.scale) 4) := by
  have hmapne : refd.physicalLocations.map (fun p => p.1) ≠ [] := by
    simpa using hne
  have hsub : ∀ x ∈ refd.physicalLocations.map (fun p => p.1),
      x ∈ refd.physicalLocations.map Prod.fst := fun x hx => hx
  unfold Gen.generateComponents
  rw [if_neg (by simpa using hmapne)]
  rw [genLbs_length refd ps _ _ _ hmapne hsub hnw,
    genStorage_length refd ps _ _ _ hmapne hsub hbp,
    genMqs_length refd ps _ _ _ hmapne hsub hpp,
    genCaches_length refd ps _ _ _ hmapne hsub hpp,
    genDbs_length refd ps _ _ _ hmapne hsub hpp,
    genApps_length refd ps _ _ _ hmapne hsub hap]
  omega

/-- Helper: the hub pattern never changes the component list. -/
theorem createHubDatabasePattern_components (refd : Gen.RefData)
    (ps : Gen.Params) (apps dbs : List Gen.Component) (s : Gen.GenState) :
    (Gen.createHubDatabasePattern refd ps apps dbs s).components =
      s.components := by
  unfold Gen.createHubDatabasePattern
  simp only [randint_eq]
  rw [foldl_components_eq]
  · rw [sample_components]
  · intro s' a
    exact createRelationship_components _ _ _ _ _ _

/-- Helper: the failover pattern never changes the component list. -/
theorem createFailoverPatterns_components (refd : Gen.RefData)
    (dbs : List Gen.Component) (s : Gen.GenState) :
    (Gen.createFailoverPatterns refd dbs s).components = s.components := by
  unfold Gen.createFailoverPatterns
  rw [foldl_components_eq]
  intro s' p
  repeat' split
  all_goals simp [createRelationship_components]

/-- Helper: the cache pattern never changes the component list. -/
theorem createCachePatterns_components (refd : Gen.RefData)
    (ps : Gen.Params) (apps caches : List Gen.Component)
    (s : Gen.GenState) :
    (Gen.createCachePatterns refd ps apps caches s).components =
      s.components := by
  unfold Gen.createCachePatterns
  rw [foldl_components_eq]
  intro s' c
  simp only [randint_eq, drawFloat_eq]
  rw [foldl_components_eq]
  · rw [sample_components]
  · intro s'' a
    repeat' split
    all_goals simp [createRelationship_components, drawFloat_eq]

/-- Helper: the message-queue pattern never changes the component list. -/
theorem createMqPatterns_components (refd : Gen.RefData)
    (apps mqs : List Gen.Component) (s : Gen.GenState) :
    (Gen.createMqPatterns refd apps mqs s).components = s.components := by
  unfold Gen.createMqPatterns
  simp only []
  repeat' split
  all_goals try simp only []
  · rw [foldl_components_eq]
    · rw [foldl_components_eq]
      · intro s' mq
        simp only [randint_eq]
        rw [foldl_components_eq]
        · simp only [sample_components]
          rw [foldl_components_eq]
          · simp only [sample_components]
          · exact fun s2 a => createRelationship_components _ _ _ _ _ _
        · exact fun s2 a => createRelationship_components _ _ _ _ _ _
    · exact fun s2 r => createRelationship_components _ _ _ _ _ _
  · rw [foldl_components_eq]
    · rw [foldl_components_eq]
      · intro s' mq
        simp only [randint_eq]
        rw [foldl_components_eq]
        · simp only [sample_components]
          rw [foldl_components_eq]
          · simp only [sample_components]
          · exact fun s2 a => createRelationship_components _ _ _ _ _ _
        · exact fun s2 a => createRelationship_components _ _ _ _ _ _
    · exact fun s2 r => createRelationship_components _ _ _ _ _ _
  · rw [foldl_components_eq]
    intro s' mq
    simp only [randint_eq]
    rw [foldl_components_eq]
    · simp only [sample_components]
      rw [foldl_components_eq]
      · simp only [sample_components]
      · exact fun s2 a => createRelationship_components _ _ _ _ _ _
    · exact fun s2 a => createRelationship_components _ _ _ _ _ _

/-- Helper: the load-balancer pattern never changes the component list. -/
theorem createLbPatterns_components (refd : Gen.RefData)
    (apps lbs : List Gen.Component) (s : Gen.GenState) :
    (Gen.createLbPatterns refd apps lbs s).components = s.components := by
  unfold Gen.createLbPatterns
  rw [foldl_components_eq]
  intro s' lb
  simp only [randint_eq]
  rw [foldl_components_eq]
  · rw [sample_components]
  · intro s'' a
    split
    all_goals exact createRelationship_components _ _ _ _ _ _

/-- Helper: the circular dependency never changes the component list. -/
theorem createCircularDependency_components (refd : Gen.RefData)
    (apps : List Gen.Component) (s : Gen.GenState) :
    (Gen.createCircularDependency refd apps s).components = s.components := by
  unfold Gen.createCircularDependency
  simp [createRelationship_components, sample_components]

/-- Helper: the orphan pass relabels descriptions but keeps the component
count. -/
theorem createOrphanedComponents_length (s : Gen.GenState) :
    (Gen.createOrphanedComponents s).components.length =
      s.components.length := by
  unfold Gen.createOrphanedComponents
  lift_lets
  extract_lets withRels orphanedCount comps s1
  split
  all_goals simp [s1, comps]

/-- Helper: the relationship phase keeps the component count. -/
theorem generateRelationships_length (refd : Gen.RefData) (ps : Gen.Params)
    (s : Gen.GenState) :
    (Gen.generateRelationships refd ps s).components.length =
      s.components.length := by
  unfold Gen.generateRelationships
  lift_lets
  extract_lets apps dbs caches mqs lbs s1 s2 s3 s4 s5 s6
  have h1 : s1.components.length = s.components.length := by
    unfold_let s1
    split
    · rw [createHubDatabasePattern_components]
    · rfl
  have h2 : s2.components.length = s.components.length := by
    unfold_let s2
    split
    · rw [createFailoverPatterns_components]
      exact h1
    · exact h1
  have h3 : s3.components.length = s.components.length := by
    unfold_let s3
    split
    · rw [createCachePatterns_components]
      exact h2
    · exact h2
  have h4 : s4.components.length = s.components.length := by
    unfold_let s4
    split
    · rw [createMqPatterns_components]
      exact h3
    · exact h3
  have h5 : s5.components.length = s.components.length := by
    unfold_let s5
    split
    · rw [createLbPatterns_components]
      exact h4
    · exact h4
  have h6 : s6.components.length = s.components.length := by
    unfold_let s6
    split
    · simp only [drawFloat_eq]
      split
      · rw [createCircularDependency_components]
        exact h5
      · exact h5
    · exact h5
  rw [createOrphanedComponents_length]
  exact h6

set_option maxRecDepth 10000 in
/-- C2 (amended): for every random seed and clock stream, and any reference
data listing at least one location and the four component type names the
generator uses, a run produces exactly 48 components at small scale, 194 at
medium and 485 at large; relationship counts are draw-dependent and not
confined to 40–100: the baseline small run yields 32 and the baseline
medium run 106. -/
theorem component_relationship_counts_amended (refd : Gen.RefData)
    (ps : Gen.Params) (rand time : List Nat)
    (hne : refd.physicalLocations ≠ [])
    (hap : "application" ∈ refd.componentTypes.map Prod.fst)
    (hpp : "polyglot_persistence" ∈ refd.componentTypes.map Prod.fst)
    (hbp : "block_level_persistence" ∈ refd.componentTypes.map Prod.fst)
    (hnw : "networking" ∈ refd.componentTypes.map Prod.fst) :
    ((ps.scale = "small" →
        (Gen.runGeneration refd ps
            (Gen.initState rand time)).components.length = 48) ∧
      (ps.scale = "medium" →
        (Gen.runGeneration refd ps
            (Gen.initState rand time)).components.length = 194) ∧
      (ps.scale = "large" →
        (Gen.runGeneration refd ps
            (Gen.initState rand time)).components.length = 485)) ∧
    (Gen.runGeneration Gen.stdRef Gen.psSmall
        (Gen.initState [] [])).relationships.length = 32 ∧
    (Gen.runGeneration Gen.stdRef Gen.psMedium
        (Gen.initState [] [])).relationships.length = 106 := by
  refine ⟨⟨?_, ?_, ?_⟩, by decide, by decide⟩
  all_goals
    intro hs
    unfold Gen.runGeneration
    rw [generateRelationships_length,
      generateComponents_length refd ps _ hne hap hpp hbp hnw, hs]
  all_goals simp [Gen.initState, Gen.scaleTotal, Gen.ratioCount]

set_option maxRecDepth 10000 in
/-- Witness for C2 (amended) at the standard reference data, small scale and
empty streams. -/
theorem component_relationship_counts_amended_witness :
    Gen.stdRef.physicalLocations ≠ [] ∧
    ("application" ∈ Gen.stdRef.componentTypes.map Prod.fst) ∧
    (((Gen.psSmall.scale = "small" →
        (Gen.runGeneration Gen.stdRef Gen.psSmall
            (Gen.initState [] [])).components.length = 48) ∧
      (Gen.psSmall.scale = "medium" →
        (Gen.runGeneration Gen.stdRef Gen.psSmall
            (Gen.initState [] [])).components.length = 194) ∧
      (Gen.psSmall.scale = "large" →
        (Gen.runGeneration Gen.stdRef Gen.psSmall
            (Gen.initState [] [])).components.length = 485)) ∧
    (Gen.runGeneration Gen.stdRef Gen.psSmall
        (Gen.initState [] [])).relationships.length = 32 ∧
    (Gen.runGeneration Gen.stdRef Gen.psMedium
        (Gen.initState [] [])).relationships.length = 106) :=
  ⟨by decide, by decide,
    component_relationship_counts_amended Gen.stdRef Gen.psSmall [] []
      (by decide) (by decide) (by decide) (by decide) (by decide)⟩

/-- Helper: timestamp erasure is idempotent on components. -/
theorem eraseTimesC_idem (c : Gen.Component) :
    Gen.eraseTimesC (Gen.eraseTimesC c) = Gen.eraseTimesC c := rfl

/-- Helper: timestamp erasure is idempotent on relationships. -/
theorem eraseTimesR_idem (r : Gen.Relationship) :
    Gen.eraseTimesR (Gen.eraseTimesR r) = Gen.eraseTimesR r := rfl

/-- Helper: state normalization is idempotent. -/
theorem normState_idem (s : Gen.GenState) :
    Gen.normState (Gen.normState s) = Gen.normState s := by
  simp [Gen.normState, Function.comp_def, eraseTimesC_idem, eraseTimesR_idem]

/-- Helper: projections of the normal form. -/
theorem normState_rand (s : Gen.GenState) :
    (Gen.normState s).rand = s.rand := rfl

/-- Helper: component projection of the normal form. -/
theorem normState_components (s : Gen.GenState) :
    (Gen.normState s).components = s.components.map Gen.eraseTimesC := rfl

/-- Helper: relationship projection of the normal form. -/
theorem normState_relationships (s : Gen.GenState) :
    (Gen.normState s).relationships =
      s.relationships.map Gen.eraseTimesR := rfl

/-- Helper: a raw draw commutes with state normalization. -/
theorem drawNat_comm (s : Gen.GenState) :
    Gen.drawNat (Gen.normState s) =
      ((Gen.drawNat s).1, Gen.normState (Gen.drawNat s).2) := by
  simp [drawNat_eq, Gen.normState]

/-- Helper: a float draw commutes with state normalization. -/
theorem drawFloat_comm (s : Gen.GenState) :
    Gen.drawFloat (Gen.normState s) =
      ((Gen.drawFloat s).1, Gen.normState (Gen.drawFloat s).2) := by
  simp [drawFloat_eq, Gen.normState]

/-- Helper: a bounded draw commutes with state normalization. -/
theorem randint_comm (a b : Nat) (s : Gen.GenState) :
    Gen.randint a b (Gen.normState s) =
      ((Gen.randint a b s).1, Gen.normState (Gen.randint a b s).2) := by
  simp [randint_eq, Gen.normState]

/-- Helper: a choice draw commutes with state normalization. -/
theorem choice_comm {α : Type} (l : List α) (d : α) (s : Gen.GenState) :
    Gen.choice l d (Gen.normState s) =
      ((Gen.choice l d s).1, Gen.normState (Gen.choice l d s).2) := by
  simp [choice_eq, Gen.normState]

/-- Helper: reading the zeroed clock yields 0 and commutes on the state. -/
theorem nowT_comm (s : Gen.GenState) :
    Gen.nowT (Gen.normState s) = (0, Gen.normState (Gen.nowT s).2) := by
  simp [nowT_eq, Gen.normState]

/-- Helper: MAC allocation commutes with state normalization. -/
theorem getNextMac_comm (s : Gen.GenState) :
    Gen.getNextMac (Gen.normState s) =
      ((Gen.getNextMac s).1, Gen.normState (Gen.getNextMac s).2) := rfl

/-- Helper: IP generation commutes with state normalization. -/
theorem getIp_comm (loc f : String) (s : Gen.GenState) :
    Gen.getIpForLocationAndType loc f (Gen.normState s) =
      ((Gen.getIpForLocationAndType loc f s).1,
        Gen.normState (Gen.getIpForLocationAndType loc f s).2) := by
  unfold Gen.getIpForLocationAndType
  simp only [randint_comm, randint_eq, normState_rand]
  repeat' split
  all_goals simp [Gen.normState]

/-- Helper: VLAN generation commutes with state normalization. -/
theorem getVlan_comm (f : String) (s : Gen.GenState) :
    Gen.getVlanForType f (Gen.normState s) =
      ((Gen.getVlanForType f s).1,
        Gen.normState (Gen.getVlanForType f s).2) := by
  unfold Gen.getVlanForType
  repeat' split
  all_goals simp [randint_comm]

